import Mathlib

/-!
Verification of the disktui operation engine against its specification.

The Rust sources are shallowly embedded: pure string algorithms become Lean
functions on `String` / `List Char`; operations that invoke external tools
become functions from an environment oracle (`Env`, giving each tool run's
outcome) to a result together with an ordered trace of performed actions
(tool invocations and UI events).  Machine integers (`u64`) are modelled as
`Nat` with explicit saturation at `2 ^ 64 - 1` where the code casts from
floating point.
-/

deriving instance DecidableEq for Except

namespace DiskTui

/-- Notification severity, mirroring `NotificationLevel`. -/
inductive Lvl
  | info
  | warning
  | error
deriving DecidableEq, Repr

/-- Events sent over the event channel (`Event` in `event.rs`), restricted to
the variants the operation engine emits: notifications, progress start/end and
refresh requests. -/
inductive UiEv
  | notif (lvl : Lvl) (msg : String)
  | progStart (msg : String)
  | progEnd
  | refresh
deriving DecidableEq, Repr

/-- One observable action of an operation: an external tool invocation
(command, arguments, optional data written to the child's input stream), or a
UI event sent over the channel. -/
inductive Act
  | tool (cmd : String) (args : List String) (stdinData : Option String)
  | ev (e : UiEv)
deriving DecidableEq, Repr

/-- Outcome of one external command run: whether the child could be spawned at
all (`Err` from `Command::output()` when false), its success flag, and its
captured output streams. -/
structure RunRes where
  spawned : Bool
  success : Bool
  stdout : String
  stderr : String
deriving DecidableEq, Repr

/-- `Partition` record from `operations.rs` (the fields the engine reads). -/
structure Partition where
  name : String
  size : Nat
  filesystem : Option String
  mount_point : Option String
  is_mounted : Bool
deriving DecidableEq, Repr

/-- `BlockDevice` record from `operations.rs`. -/
structure BlockDevice where
  name : String
  size : Nat
  model : Option String
  serial : Option String
  partitions : List Partition
deriving DecidableEq, Repr

/-- `LuksStatus` record from `operations.rs`. -/
structure LuksStatus where
  is_active : Bool
  mapper_name : Option String
  device_path : Option String
deriving DecidableEq, Repr

/-- Environment oracle for one operation run: outcomes of external commands,
filesystem-path existence, the `/dev/mapper` registry listing, the device
inventory returned by the (out-of-scope) inventory reader, and whether the
two bounded timeouts fire. -/
structure Env where
  run : String → List String → Option String → RunRes
  pathExists : String → Bool
  mapperDirOk : Bool
  mapperEntries : List String
  devices : List BlockDevice
  devices2 : List BlockDevice
  umountTimeout : Bool
  lockTimeout : Bool
  waitDeviceOk : Bool

/-- Substring test on character lists (Rust `str::contains` with a `&str`
pattern). -/
def hasSub : List Char → List Char → Bool
  | [], needle => needle.isEmpty
  | h :: t, needle => needle.isPrefixOf (h :: t) || hasSub t needle

/-- Rust `String::contains` for string patterns. -/
def containsSub (s sub : String) : Bool :=
  hasSub (s.toList) (sub.toList)

/-- UTF-8 byte length of a character list (Rust `str::len`). -/
def utf8Len (l : List Char) : Nat :=
  l.foldl (fun n c => n + c.utf8Size) 0

/-- Rust `char::is_whitespace` (Unicode `White_Space`), exact on the Basic
Latin and Latin-1 blocks. -/
def rustIsWhitespace (c : Char) : Bool :=
  c.val == 32 || (9 ≤ c.val && c.val ≤ 13) || c.val == 0x85 || c.val == 0xA0

/-- Rust `str::trim` on a character list. -/
def trimChars (l : List Char) : List Char :=
  ((l.dropWhile rustIsWhitespace).reverse.dropWhile rustIsWhitespace).reverse

/-- Split a character list at every separator matching `p`, keeping empty
pieces (Rust `str::split` semantics). -/
def splitAux (p : Char → Bool) : List Char → List Char → List (List Char)
  | [], acc => [acc.reverse]
  | c :: t, acc => if p c then acc.reverse :: splitAux p t [] else splitAux p t (c :: acc)

/-- Rust `str::split` with a character-class pattern. -/
def splitP (p : Char → Bool) (l : List Char) : List (List Char) :=
  splitAux p l []

/-- `x` is a suffix of `y` (Rust `str::ends_with`). -/
def endsWithL (y x : List Char) : Bool :=
  x.reverse.isPrefixOf y.reverse

/-- Model of Rust `char::is_alphanumeric` (Unicode `Alphabetic` or numeric
general category).  Exact on the Basic Latin and Latin-1 Supplement blocks
(code points below `0x100`): there the alphanumerics are the ASCII letters
and digits together with the Latin-1 letters (ª µ º, À–Ö, Ø–ö, ø–ÿ, excluding
× and ÷) and the Latin-1 numeric characters (² ³ ¹ ¼ ½ ¾).  Code points at
`0x100` and above are outside the domain any theorem below quantifies over
and are mapped to `false`. -/
def rustIsAlphanumeric (c : Char) : Bool :=
  if c.val < 0x80 then c.isAlphanum
  else if c.val < 0x100 then
    c.val == 0xAA || c.val == 0xB5 || c.val == 0xBA ||
    c.val == 0xB2 || c.val == 0xB3 || c.val == 0xB9 ||
    (0xBC ≤ c.val && c.val ≤ 0xBE) ||
    (0xC0 ≤ c.val && c.val ≤ 0xFF && c.val != 0xD7 && c.val != 0xF7)
  else false

/-- `validate_device_name` from `operations.rs`: rejects empty names, names
containing `..` or `/`, names with a character that is not alphanumeric and
not `-` or `_`, and names whose byte length exceeds 32. -/
def validate_device_name (name : String) : Except String Unit :=
  if name.toList.isEmpty then
    Except.error ("Device name cannot be empty")
  else if containsSub name ("..") || name.toList.contains ('/') then
    Except.error ("Invalid device name: contains illegal characters")
  else if !(name.toList.all (fun c => rustIsAlphanumeric c || c == ('-') || c == ('_'))) then
    Except.error ("Invalid device name: contains illegal characters")
  else if utf8Len name.toList > 32 then
    Except.error ("Invalid device name: too long")
  else
    Except.ok ()

/-- `validate_device_name` from `bin/disktui-helper.rs`: same checks as the
in-process validator, with different error messages. -/
def helper_validate_device_name (name : String) : Except String Unit :=
  if name.toList.isEmpty then
    Except.error ("Invalid device name: empty")
  else if containsSub name ("..") || name.toList.contains ('/') then
    Except.error ("Invalid device name: contains path traversal characters")
  else if !(name.toList.all (fun c => rustIsAlphanumeric c || c == ('-') || c == ('_'))) then
    Except.error ("Invalid device name: contains illegal characters")
  else if utf8Len name.toList > 32 then
    Except.error ("Invalid device name: too long")
  else
    Except.ok ()

/-- `get_device_path` from `operations.rs`: a `luks-` name resolves to its
mapper path when that exists, else to the raw path of the name with the
`luks-` marker removed; any other name resolves to the mapper path of that
name when it exists, else to the raw `/dev/<name>` path. -/
def get_device_path (env : Env) (device_name : String) : String :=
  if ("luks-".toList).isPrefixOf device_name.toList then
    let mapper_path := "/dev/mapper/" ++ device_name
    if env.pathExists mapper_path then mapper_path
    else "/dev/" ++ String.mk (device_name.toList.drop 5)
  else
    let mapper_path := "/dev/mapper/" ++ device_name
    if env.pathExists mapper_path then mapper_path
    else "/dev/" ++ device_name

/-! ### Size parser

Rust parses the numeric part with `str::parse::<f64>` and computes
`(num * unit as f64).round() as u64`.  The numeric grammar (sign, digits,
optional fraction, optional exponent) is modelled exactly; the value is kept
as an integer pair `(a, k)` denoting `a / 10 ^ k`, so the multiplication and
the round-half-up / saturate-to-`u64` cast are exact integer arithmetic.
(`inf` / `nan` literals and double rounding of 17-plus-digit mantissas are
outside the inputs any theorem below evaluates.) -/

/-- Decimal digit accumulation. -/
def digitsVal (l : List Char) : Nat :=
  l.foldl (fun a c => a * 10 + (c.toNat - 48)) 0

/-- Parse an optionally signed, non-empty run of digits (the exponent part of
a float literal). -/
def parseExp (l : List Char) : Option Int :=
  let p : Int × List Char :=
    match l with
    | '+' :: r => (1, r)
    | '-' :: r => (-1, r)
    | r => (1, r)
  if p.2 ≠ [] ∧ p.2.all Char.isDigit then
    some (p.1 * (digitsVal p.2 : Int))
  else none

/-- Parse a float mantissa `digits[.digits]` (at least one digit overall) into
`(value numerator, fraction length)`: the value is `a / 10 ^ k`. -/
def parseMant (l : List Char) : Option (Nat × Nat) :=
  match splitP (fun c => c == ('.')) l with
  | [a] =>
    if a ≠ [] ∧ a.all Char.isDigit then some (digitsVal a, 0) else none
  | [a, b] =>
    if (a ++ b) ≠ [] ∧ (a ++ b).all Char.isDigit then
      some (digitsVal a * 10 ^ b.length + digitsVal b, b.length)
    else none
  | _ => none

/-- Parse a float literal (over an already upper-cased token, so the exponent
marker is `E`) into `(a, k)` with value `a / 10 ^ k`. -/
def parseDec (l : List Char) : Option (Int × Nat) :=
  let s : Int × List Char :=
    match l with
    | '+' :: r => (1, r)
    | '-' :: r => (-1, r)
    | r => (1, r)
  match splitP (fun c => c == ('E')) s.2 with
  | [m] => (parseMant m).map (fun p => (s.1 * (p.1 : Int), p.2))
  | [m, e] =>
    match parseMant m, parseExp e with
    | some p, some ex =>
      if 0 ≤ ex then some (s.1 * (p.1 : Int) * 10 ^ ex.toNat, p.2)
      else some (s.1 * (p.1 : Int), p.2 + (-ex).toNat)
    | _, _ => none
  | _ => none

/-- `(value * unit).round() as u64` for a parsed value `a / 10 ^ k`: negative
results clamp to 0, the rest round half away from zero and saturate at
`2 ^ 64 - 1` (Rust's saturating float-to-int cast). -/
def sizeFromParts (a : Int) (k : Nat) (unit : Nat) : Nat :=
  let n : Int := a * (unit : Int)
  if n < 0 then 0
  else min ((2 * n.toNat + 10 ^ k) / (2 * 10 ^ k)) (2 ^ 64 - 1)

/-- Normalisation shared by both parsers: `input.trim().to_uppercase()`, as a
character list.  Upper-casing is modelled character-wise with the ASCII map
(exact on ASCII; both parsers share this step, so their comparison is
unaffected by it). -/
def trimUpChars (s : String) : List Char :=
  (trimChars s.toList).map Char.toUpper

/-- Unit-suffix detection, written on the reversed character list.  Each arm
corresponds to one `ends_with` branch of the Rust code, tried in the same
order (`TB`/`T`, `GB`/`G`, `MB`/`M`, `KB`/`K`); the returned list is the
reversed numeric part. -/
def unitSplitRev : List Char → List Char × Nat
  | 'B' :: 'T' :: rest => (rest, 1000000000000)
  | 'T' :: rest => (rest, 1000000000000)
  | 'B' :: 'G' :: rest => (rest, 1000000000)
  | 'G' :: rest => (rest, 1000000000)
  | 'B' :: 'M' :: rest => (rest, 1000000)
  | 'M' :: rest => (rest, 1000000)
  | 'B' :: 'K' :: rest => (rest, 1000)
  | 'K' :: rest => (rest, 1000)
  | r => (r, 1)

/-- `parse_size` from `operations.rs`: trim, upper-case, strip *all* trailing
`B` characters (`trim_end_matches('B')`), detect the unit suffix, parse the
numeric part as a float and return the rounded product. -/
def parse_size (input : String) : Except String Nat :=
  let r := (trimUpChars input).reverse
  let r2 := r.dropWhile (fun c => c == ('B'))
  let p := unitSplitRev r2
  match parseDec (p.1.reverse) with
  | none => Except.error ("Invalid size format. Use format like: 100M, 2.5GB, 1TB")
  | some d => Except.ok (sizeFromParts d.1 d.2 p.2)

/-- `parse_size` from `bin/disktui-helper.rs`: same as the in-process parser
but *without* the leading `trim_end_matches('B')` pass. -/
def helper_parse_size (input : String) : Except String Nat :=
  let r := (trimUpChars input).reverse
  let p := unitSplitRev r
  match parseDec (p.1.reverse) with
  | none => Except.error ("Invalid size format")
  | some d => Except.ok (sizeFromParts d.1 d.2 p.2)

/-- The size grammar exactly as the specification words it (claim C5): a
trailing `K`/`KB`, `M`/`MB`, `G`/`GB` or `T`/`TB` suffix (the token is
already trimmed and upper-cased) selects the power-of-1000 multiplier, an
absent suffix means raw bytes, the numeric part is float-parsed and the
product rounded to the nearest integer. -/
def claimSizeCore (l : List Char) : Except String Nat :=
  let p := unitSplitRev l.reverse
  match parseDec (p.1.reverse) with
  | none => Except.error ("parse error")
  | some d => Except.ok (sizeFromParts d.1 d.2 p.2)

/-- The specification's size parser on a raw input string (claim C5's
reading): normalise, then apply the suffix grammar — with no stripping of
bare `B` characters. -/
def claimC5spec (s : String) : Except String Nat :=
  claimSizeCore (trimUpChars s)

/-! ### Partition-table rewrite (`resize_partition_and_filesystem`,
`operations.rs` lines 1379–1454)

The sfdisk dump is a list of lines.  A line that contains
`/dev/<disk><num>` or `/dev/<disk>p<num>` as a substring sets the `found`
flag; if additionally its device field (the text before the first `:` or
`,`, trimmed) equals one of the two expected names, the line is rebuilt with
the new `size=` value; otherwise it passes through unchanged.  After the
loop, `found = false` is an error. -/

/-- Split one descriptor line at `:` and `,` (Rust
`line.split(&[':',','][..])`). -/
def splitLine (line : String) : List (List Char) :=
  splitP (fun c => c == (':') || c == (',')) line.toList

/-- The attribute walk over the fields after the device field: remember the
last field starting with `start` (trimmed), drop fields starting with
`size`, and collect every other non-empty field (trimmed, in order). -/
def collectAttrs (ptail : List (List Char)) : List Char × List (List Char) :=
  ptail.foldl
    (fun acc part =>
      let trimmed := trimChars part
      if ("start".toList).isPrefixOf trimmed then (trimmed, acc.2)
      else if ("size".toList).isPrefixOf trimmed then acc
      else if trimmed ≠ [] then (acc.1, acc.2 ++ [trimmed])
      else acc)
    ([], [])

/-- Rebuild the matched line:
`<device> : <start>, size=<sectors>` followed by the other attributes. -/
def buildLine (device_part start_str : List Char) (sectors : Nat) (attrs : List (List Char)) : String :=
  attrs.foldl (fun acc a => acc ++ ", " ++ String.mk a)
    (String.mk device_part ++ " : " ++ String.mk start_str ++ ", size=" ++ toString sectors)

/-- Failure modes of the table rewrite. -/
inductive RErr
  | invalidFormat
  | noStart
  | notFound
deriving DecidableEq, Repr

/-- The rewrite loop body over the dump lines, returning the rewritten lines
and the `found` flag. -/
def rewriteLines (d1 dp : String) (newBytes : Nat) : List String → Except RErr (List String × Bool)
  | [] => Except.ok ([], false)
  | line :: rest =>
    if containsSub line d1 || containsSub line dp then
      match splitLine line with
      | [] => Except.error (RErr.invalidFormat)
      | p0 :: ptail =>
        let device_part := trimChars p0
        if device_part = d1.toList ∨ device_part = dp.toList then
          let ca := collectAttrs ptail
          if ca.1 = [] then Except.error (RErr.noStart)
          else
            let size_sectors := (newBytes + 511) / 512
            let new_line := buildLine device_part ca.1 size_sectors ca.2
            match rewriteLines d1 dp newBytes rest with
            | Except.ok r => Except.ok (new_line :: r.1, true)
            | Except.error e => Except.error e
        else
          match rewriteLines d1 dp newBytes rest with
          | Except.ok r => Except.ok (line :: r.1, true)
          | Except.error e => Except.error e
    else
      match rewriteLines d1 dp newBytes rest with
      | Except.ok r => Except.ok (line :: r.1, r.2)
      | Except.error e => Except.error e

/-- The full table rewrite for disk `disk`, partition index `part_num` and
requested byte size `newBytes`. -/
def rewriteTable (disk : String) (part_num : Nat) (newBytes : Nat) (lines : List String) :
    Except RErr (List String) :=
  let d1 := "/dev/" ++ disk ++ toString part_num
  let dp := "/dev/" ++ disk ++ "p" ++ toString part_num
  match rewriteLines d1 dp newBytes lines with
  | Except.error e => Except.error e
  | Except.ok r => if r.2 then Except.ok r.1 else Except.error (RErr.notFound)

/-! ### Operation models

Each operation from `operations.rs` becomes a function from the environment
oracle and its string arguments to a pair: the ordered trace of actions
(external tool invocations and channel events) and the operation's result.
The inventory reader (`list_block_devices`, an external collaborator per the
specification) is abstracted to its `lsblk` invocation returning
`env.devices`; its subordinate per-partition probes are folded into the
oracle. -/

/-- `FilesystemType` from `operations.rs`. -/
inductive FilesystemType
  | Ext4
  | Fat32
  | Ntfs
  | Exfat
  | Btrfs
  | Xfs
deriving DecidableEq, Repr

/-- `FilesystemType::as_str`. -/
def FilesystemType.as_str : FilesystemType → String
  | FilesystemType.Ext4 => "ext4"
  | FilesystemType.Fat32 => "fat32"
  | FilesystemType.Ntfs => "ntfs"
  | FilesystemType.Exfat => "exfat"
  | FilesystemType.Btrfs => "btrfs"
  | FilesystemType.Xfs => "xfs"

/-- A notification event (`Notification::send`). -/
def notif (lvl : Lvl) (msg : String) : Act :=
  Act.ev (UiEv.notif lvl msg)

/-- Record one tool invocation and obtain its oracle outcome. -/
def runTool (env : Env) (cmd : String) (args : List String) (stdinData : Option String) :
    List Act × RunRes :=
  ([Act.tool cmd args stdinData], env.run cmd args stdinData)

/-- Split captured output into lines (Rust `str::lines`): split at `\n`,
drop the final empty piece produced by a trailing newline, strip one
trailing `\r` from each line. -/
def linesOf (s : String) : List String :=
  let ps := splitP (fun c => c == ('\n')) s.toList
  let ps := if ps.getLast? = some [] then ps.dropLast else ps
  ps.map (fun l => String.mk (if l.getLast? = some ('\r') then l.dropLast else l))

/-- `is_luks_device`: success of `cryptsetup isLuks /dev/<device>`;
a spawn failure counts as "not encrypted". -/
def is_luks_device (env : Env) (device : String) : List Act × Bool :=
  let t := runTool env ("cryptsetup") (["isLuks", "/dev/" ++ device]) none
  (t.1, t.2.spawned && t.2.success)

/-- Scan `cryptsetup status` output lines for a `device:` line whose path
ends with the requested name or equals `/dev/<name>`. -/
def statusDeviceLine (device : String) : List String → Option String
  | [] => none
  | line :: rest =>
    if ("device:".toList).isPrefixOf (trimChars line.toList) then
      let dev_path := trimChars ((splitP (fun c => c == (':')) line.toList).getD 1 [])
      if endsWithL dev_path (device.toList) || dev_path = ("/dev/" ++ device).toList then
        some (String.mk dev_path)
      else statusDeviceLine device rest
    else statusDeviceLine device rest

/-- The mapper-registry walk of `get_luks_status`: for each `/dev/mapper`
entry other than `control`, run `cryptsetup status` and match its reported
backing device; first match wins. -/
def luksScan (env : Env) (device : String) : List String → List Act × LuksStatus
  | [] => ([], ⟨false, none, none⟩)
  | m :: rest =>
    if m = "control" then luksScan env device rest
    else
      let t := runTool env ("cryptsetup") (["status", m]) none
      if t.2.spawned && t.2.success then
        match statusDeviceLine device (linesOf t.2.stdout) with
        | some dev_path => (t.1, ⟨true, some m, some dev_path⟩)
        | none =>
          let r := luksScan env device rest
          (t.1 ++ r.1, r.2)
      else
        let r := luksScan env device rest
        (t.1 ++ r.1, r.2)

/-- `get_luks_status`: inactive when `/dev/mapper` cannot be read, else the
registry walk. -/
def get_luks_status (env : Env) (device : String) : List Act × LuksStatus :=
  if env.mapperDirOk then luksScan env device env.mapperEntries
  else ([], ⟨false, none, none⟩)

/-- `is_mounted`: `findmnt -n <resolved path>` succeeds; a spawn failure is
an error. -/
def is_mounted (env : Env) (partition : String) : List Act × Except String Bool :=
  let path := get_device_path env partition
  let t := runTool env ("findmnt") (["-n", path]) none
  (t.1, if t.2.spawned then Except.ok t.2.success else Except.error ("Failed to execute findmnt"))

/-- The maker tool and argument list chosen by `format_partition` for each
filesystem type. -/
def mkfsCmdArgs (fs : FilesystemType) (device_path : String) : String × List String :=
  match fs with
  | FilesystemType.Ext4 =>
    ("mkfs.ext4", ["-F", "-E", "lazy_itable_init=1,lazy_journal_init=1", device_path])
  | FilesystemType.Fat32 => ("mkfs.fat", ["-F", "32", device_path])
  | FilesystemType.Ntfs => ("mkfs.ntfs", ["-f", "-Q", device_path])
  | FilesystemType.Exfat => ("mkfs.exfat", [device_path])
  | FilesystemType.Btrfs => ("mkfs.btrfs", ["-f", device_path])
  | FilesystemType.Xfs => ("mkfs.xfs", ["-f", device_path])

/-- The tail of `format_partition` once the target device (raw partition or
mapper redirect) is fixed: mounted check, path-existence check, tool lookup,
progress-wrapped maker invocation. -/
def format_partition_on (env : Env) (actual_device : String) (fs : FilesystemType) :
    List Act × Except String Unit :=
  let im := is_mounted env actual_device
  match im.2 with
  | Except.error e => (im.1, Except.error e)
  | Except.ok true =>
    (im.1 ++ [notif (Lvl.error) (actual_device ++ " is mounted. Unmount it first (press 'm')")],
      Except.error ("Partition is mounted"))
  | Except.ok false =>
    let device_path := get_device_path env actual_device
    if !(env.pathExists device_path) then
      (im.1 ++ [notif (Lvl.error) ("Device " ++ device_path ++ " does not exist. If this is a LUKS device, ensure it is unlocked first.")],
        Except.error ("Device does not exist: " ++ device_path))
    else
      let ca := mkfsCmdArgs fs device_path
      let w := runTool env ("which") ([ca.1]) none
      if !(w.2.spawned && w.2.success) then
        (im.1 ++ w.1 ++ [notif (Lvl.error) ("Formatting tool '" ++ ca.1 ++ "' not found. Install the required package.")],
          Except.error ("Command not found: " ++ ca.1))
      else
        let hdr := im.1 ++ w.1 ++
          [Act.ev (UiEv.progStart ("Formatting " ++ actual_device ++ " as " ++ fs.as_str ++ "..."))]
        let t := runTool env ca.1 ca.2 none
        if !t.2.spawned then
          (hdr ++ t.1 ++ [Act.ev (UiEv.progEnd),
              notif (Lvl.error) ("Failed to execute " ++ ca.1)],
            Except.error ("Failed to execute " ++ ca.1))
        else if !t.2.success then
          (hdr ++ t.1 ++ [Act.ev (UiEv.progEnd),
              notif (Lvl.error) ("Format failed: " ++ t.2.stderr)],
            Except.error ("Format failed"))
        else
          (hdr ++ t.1 ++ [Act.ev (UiEv.progEnd),
              notif (Lvl.info) ("Formatted " ++ actual_device ++ " as " ++ fs.as_str)],
            Except.ok ())

/-- `format_partition` from `operations.rs`: validate, redirect an unlocked
encrypted target to its mapper device (fail when locked), then format the
resolved target. -/
def format_partition (env : Env) (partition : String) (fs : FilesystemType) :
    List Act × Except String Unit :=
  match validate_device_name partition with
  | Except.error e => ([], Except.error e)
  | Except.ok _ =>
    let il := is_luks_device env partition
    if il.2 then
      let gs := get_luks_status env partition
      if gs.2.is_active then
        match gs.2.mapper_name with
        | some mapper_name =>
          let pre := il.1 ++ gs.1 ++
            [notif (Lvl.info) (partition ++ " is encrypted and unlocked. Formatting the encrypted filesystem at " ++ mapper_name ++ "...")]
          let r := format_partition_on env mapper_name fs
          (pre ++ r.1, r.2)
        | none =>
          (il.1 ++ gs.1, Except.error ("LUKS device is active but mapper name not found"))
      else
        (il.1 ++ gs.1 ++
            [notif (Lvl.error) (partition ++ " is encrypted and locked. Unlock it first (press 'l') to format the encrypted filesystem.")],
          Except.error ("Cannot format locked LUKS device - unlock it first"))
    else
      let r := format_partition_on env partition fs
      (il.1 ++ r.1, r.2)

/-- `format_bytes` from `utils.rs` (power-of-1000 units, one decimal when not
an exact multiple).  The one-decimal value is computed by exact half-up
rounding; no theorem depends on this text. -/
def fmtUnit (b u : Nat) (suf : String) : String :=
  if b % u = 0 then toString (b / u) ++ suf
  else
    let t := (b * 10 + u / 2) / u
    toString (t / 10) ++ "." ++ toString (t % 10) ++ suf

/-- `format_bytes` from `utils.rs`. -/
def format_bytes (bytes : Nat) : String :=
  if bytes ≥ 1000000000000 then fmtUnit bytes 1000000000000 ("TB")
  else if bytes ≥ 1000000000 then fmtUnit bytes 1000000000 ("GB")
  else if bytes ≥ 1000000 then fmtUnit bytes 1000000 ("MB")
  else if bytes ≥ 1000 then fmtUnit bytes 1000 ("KB")
  else toString bytes ++ "B"

/-- `mount_partition` from `operations.rs`. -/
def mount_partition (env : Env) (partition : String) : List Act × Except String Unit :=
  match validate_device_name partition with
  | Except.error e => ([], Except.error e)
  | Except.ok _ =>
    let il := is_luks_device env partition
    let luksGate : List Act × Option (Except String Unit) :=
      if il.2 then
        let gs := get_luks_status env partition
        if gs.2.is_active then
          match gs.2.mapper_name with
          | some mapper_name =>
            (il.1 ++ gs.1 ++
                [notif (Lvl.error) (partition ++ " is an unlocked encrypted device. Mount the mapper device instead: " ++ mapper_name)],
              some (Except.error ("Cannot mount base device of unlocked LUKS partition. Use mapper device.")))
          | none => (il.1 ++ gs.1, none)
        else
          (il.1 ++ gs.1 ++
              [notif (Lvl.error) (partition ++ " is a locked encrypted device. Unlock it first (press 'l').")],
            some (Except.error ("Cannot mount locked encrypted device")))
      else (il.1, none)
    match luksGate.2 with
    | some r => (luksGate.1, r)
    | none =>
      let im := is_mounted env partition
      match im.2 with
      | Except.error e => (luksGate.1 ++ im.1, Except.error e)
      | Except.ok true =>
        (luksGate.1 ++ im.1 ++ [notif (Lvl.warning) (partition ++ " already mounted")], Except.ok ())
      | Except.ok false =>
        let device_path := get_device_path env partition
        if !(env.pathExists device_path) then
          (luksGate.1 ++ im.1 ++
              [notif (Lvl.error) ("Device " ++ device_path ++ " does not exist. If this is a LUKS device, ensure it is unlocked first.")],
            Except.error ("Device does not exist: " ++ device_path))
        else
          let mount_point := "/mnt/" ++ partition
          let mk := runTool env ("mkdir") (["-p", mount_point]) none
          if !mk.2.spawned then
            (luksGate.1 ++ im.1 ++ mk.1, Except.error ("Failed to create mount point"))
          else
            let mo := runTool env ("mount") ([device_path, mount_point]) none
            if !mo.2.spawned then
              (luksGate.1 ++ im.1 ++ mk.1 ++ mo.1, Except.error ("Failed to mount partition"))
            else if !mo.2.success then
              (luksGate.1 ++ im.1 ++ mk.1 ++ mo.1 ++
                  [notif (Lvl.error) ("Mount failed: " ++ mo.2.stderr)],
                Except.error ("Mount failed"))
            else
              (luksGate.1 ++ im.1 ++ mk.1 ++ mo.1 ++
                  [notif (Lvl.info) ("Mounted " ++ partition ++ " at " ++ mount_point)],
                Except.ok ())

/-- The lazy-unmount fallback sequence shared by the timeout branch and the
busy-stderr branch of `unmount_partition` (both start right after an
`EndProgress`). -/
def lazy_unmount_seq (env : Env) (partition device_path : String) : List Act × Except String Unit :=
  let pre := [notif (Lvl.info) ("Device is busy. Attempting lazy unmount..."),
    Act.ev (UiEv.progStart ("Lazy unmounting " ++ partition ++ "..."))]
  let lz := runTool env ("umount") (["-l", device_path]) none
  if !lz.2.spawned then (pre ++ lz.1, Except.error ("Failed to lazy unmount"))
  else if !lz.2.success then
    (pre ++ lz.1 ++ [Act.ev (UiEv.progEnd),
        notif (Lvl.error) ("Lazy unmount failed: " ++ lz.2.stderr)],
      Except.error ("Lazy unmount failed"))
  else
    let rm := runTool env ("rmdir") (["/mnt/" ++ partition]) none
    (pre ++ lz.1 ++ [Act.ev (UiEv.progEnd)] ++ rm.1 ++
        [notif (Lvl.info) ("Lazy unmounted " ++ partition ++ " (will complete when no longer in use)")],
      Except.ok ())

/-- The part of `unmount_partition` after the encrypted-device gate: mounted
check, path check, bounded-timeout unmount, busy/lazy fallback, cleanup. -/
def unmount_main (env : Env) (partition : String) : List Act × Except String Unit :=
  let im := is_mounted env partition
  match im.2 with
  | Except.error e => (im.1, Except.error e)
  | Except.ok false =>
    (im.1 ++ [notif (Lvl.warning) (partition ++ " not mounted")], Except.ok ())
  | Except.ok true =>
    let device_path := get_device_path env partition
    if !(env.pathExists device_path) then
      (im.1 ++
          [notif (Lvl.error) ("Device " ++ device_path ++ " does not exist. If this is a LUKS device, ensure it is unlocked first.")],
        Except.error ("Device does not exist: " ++ device_path))
    else
      let hdr := im.1 ++ [Act.ev (UiEv.progStart ("Unmounting " ++ partition ++ "..."))]
      let um := runTool env ("umount") ([device_path]) none
      if env.umountTimeout then
        let lr := lazy_unmount_seq env partition device_path
        (hdr ++ um.1 ++ [Act.ev (UiEv.progEnd)] ++ lr.1, lr.2)
      else if !um.2.spawned then
        (hdr ++ um.1 ++ [Act.ev (UiEv.progEnd), notif (Lvl.error) ("Failed to unmount: error")],
          Except.error ("Failed to execute unmount"))
      else if um.2.success then
        let rm := runTool env ("rmdir") (["/mnt/" ++ partition]) none
        (hdr ++ um.1 ++ [Act.ev (UiEv.progEnd)] ++ rm.1 ++
            [notif (Lvl.info) ("Unmounted " ++ partition)],
          Except.ok ())
      else if containsSub um.2.stderr ("target is busy") || containsSub um.2.stderr ("device is busy") then
        let lr := lazy_unmount_seq env partition device_path
        (hdr ++ um.1 ++ [Act.ev (UiEv.progEnd)] ++ lr.1, lr.2)
      else
        (hdr ++ um.1 ++ [Act.ev (UiEv.progEnd),
            notif (Lvl.error) ("Unmount failed: " ++ um.2.stderr)],
          Except.error ("Unmount failed"))

/-- `unmount_partition` from `operations.rs`. -/
def unmount_partition (env : Env) (partition : String) : List Act × Except String Unit :=
  match validate_device_name partition with
  | Except.error e => ([], Except.error e)
  | Except.ok _ =>
    let il := is_luks_device env partition
    if il.2 then
      let gs := get_luks_status env partition
      if gs.2.is_active then
        (il.1 ++ gs.1 ++
            [notif (Lvl.error) (partition ++ " is an encrypted device that is unlocked. Lock it first instead of unmounting.")],
          Except.error ("Cannot unmount unlocked encrypted device directly. Lock it first."))
      else
        let r := unmount_main env partition
        (il.1 ++ gs.1 ++ r.1, r.2)
    else
      let r := unmount_main env partition
      (il.1 ++ r.1, r.2)

/-- `create_partition_table` from `operations.rs`. -/
def create_partition_table (env : Env) (disk table_type : String) : List Act × Except String Unit :=
  match validate_device_name disk with
  | Except.error e => ([], Except.error e)
  | Except.ok _ =>
    let t := runTool env ("parted") (["-s", "/dev/" ++ disk, "mklabel", table_type]) none
    if !t.2.spawned then (t.1, Except.error ("Failed to execute parted"))
    else if !t.2.success then
      (t.1 ++ [notif (Lvl.error) ("Create table failed: " ++ t.2.stderr)],
        Except.error ("Create partition table failed"))
    else
      (t.1 ++ [notif (Lvl.info) ("Created " ++ table_type ++ " partition table on " ++ disk)],
        Except.ok ())

/-- The inventory reader (`list_block_devices`), an external collaborator:
modelled as its `lsblk` invocation returning the oracle's device list; its
subordinate per-partition probes are folded into the oracle. -/
def list_block_devices (env : Env) : List Act × List BlockDevice :=
  ([Act.tool ("lsblk") (["-J", "-b", "-o", "NAME,SIZE,TYPE,MODEL,SERIAL,MOUNTPOINT,FSTYPE,LABEL"]) none],
    env.devices)

/-- The inventory re-read performed after a partition-creating tool has run
(the external world may have changed, so the oracle supplies a second
snapshot). -/
def list_block_devices_again (env : Env) : List Act × List BlockDevice :=
  ([Act.tool ("lsblk") (["-J", "-b", "-o", "NAME,SIZE,TYPE,MODEL,SERIAL,MOUNTPOINT,FSTYPE,LABEL"]) none],
    env.devices2)

/-- The requested-size resolution of `create_partition_raw` (lines 998–1002):
a blank input resolves to all free space, otherwise the size parser runs. -/
def requested_size_of (free_space : Nat) (size_input : String) : Except String Nat :=
  if trimChars size_input.toList = [] then Except.ok free_space
  else parse_size size_input

/-- `create_partition_raw` from `operations.rs`: free-space computation,
size resolution, bounds check, `parted mkpart` over the MB-truncated byte
range, re-read of the inventory and return of the last partition's name. -/
def create_partition_raw (env : Env) (disk size_input : String) : List Act × Except String String :=
  match validate_device_name disk with
  | Except.error e => ([], Except.error e)
  | Except.ok _ =>
    let lb := list_block_devices env
    match lb.2.find? (fun d => d.name = disk) with
    | none =>
      (lb.1 ++ [notif (Lvl.error) ("Disk " ++ disk ++ " not found")],
        Except.error ("Disk not found"))
    | some device =>
      let used_space := (device.partitions.map (fun p => p.size)).sum
      let free_space := device.size - used_space
      if free_space = 0 then
        (lb.1 ++ [notif (Lvl.error) ("No free space available")], Except.error ("No free space"))
      else
        match requested_size_of free_space size_input with
        | Except.error e => (lb.1, Except.error e)
        | Except.ok requested_size =>
          if requested_size > free_space then
            (lb.1 ++
                [notif (Lvl.error) ("Requested size exceeds available space (" ++
                  format_bytes requested_size ++ " > " ++ format_bytes free_space ++ ")")],
              Except.error ("Size too large"))
          else
            let start_offset := used_space
            let start_mb := start_offset / 1000000
            let end_offset := start_offset + requested_size
            let end_mb := end_offset / 1000000
            let t := runTool env ("parted")
              (["-s", "/dev/" ++ disk, "mkpart", "primary",
                toString start_mb ++ "MB", toString end_mb ++ "MB"]) none
            if !t.2.spawned then (lb.1 ++ t.1, Except.error ("Failed to execute parted"))
            else if !t.2.success then
              let error_msg :=
                if containsSub t.2.stderr ("unrecognised disk label") ||
                    containsSub t.2.stderr ("unrecognized disk label") then
                  "No partition table on " ++ disk ++ ". Press 'p' to create one first."
                else
                  "Create partition failed: " ++ String.mk (trimChars t.2.stderr.toList)
              (lb.1 ++ t.1 ++ [notif (Lvl.error) error_msg],
                Except.error ("Create partition failed"))
            else
              let lb2 := list_block_devices_again env
              match lb2.2.find? (fun d => d.name = disk) with
              | some device2 =>
                match device2.partitions.getLast? with
                | some new_partition =>
                  (lb.1 ++ t.1 ++ lb2.1, Except.ok new_partition.name)
                | none => (lb.1 ++ t.1 ++ lb2.1, Except.error ("Failed to find new partition"))
              | none => (lb.1 ++ t.1 ++ lb2.1, Except.error ("Failed to find new partition"))

/-- `create_partition_with_fs` from `operations.rs`. -/
def create_partition_with_fs (env : Env) (disk size_input : String) (fs : FilesystemType) :
    List Act × Except String Unit :=
  let hdr := [Act.ev (UiEv.progStart ("Creating partition on " ++ disk ++ "..."))]
  let cr := create_partition_raw env disk size_input
  match cr.2 with
  | Except.error e => (hdr ++ cr.1, Except.error e)
  | Except.ok part_name =>
    let mid := [notif (Lvl.info) ("Formatting " ++ part_name ++ " as " ++ fs.as_str ++ "...")]
    let fp := format_partition env part_name fs
    match fp.2 with
    | Except.error e => (hdr ++ cr.1 ++ mid ++ fp.1, Except.error e)
    | Except.ok _ =>
      (hdr ++ cr.1 ++ mid ++ fp.1 ++ [Act.ev (UiEv.progEnd),
          notif (Lvl.info) ("Created and formatted partition on " ++ disk)],
        Except.ok ())

/-- Rust `rsplitn(2, 'p')` as used by the `nvme*`/`mmcblk*` name splitting:
split once at the last `p`, returning (before, after); `none` when there is
no `p`. -/
def rsplitOnceP (l : List Char) : Option (List Char × List Char) :=
  let rev := l.reverse
  if rev.contains ('p') then
    some (((rev.dropWhile (fun c => c ≠ ('p'))).tail).reverse,
      (rev.takeWhile (fun c => c ≠ ('p'))).reverse)
  else none

/-- The non-`nvme` disk/index split: the disk is the name with its trailing
digits removed, the index is that digit suffix. -/
def trimDigitSplit (l : List Char) : List Char × List Char :=
  ((l.reverse.dropWhile Char.isDigit).reverse, (l.reverse.takeWhile Char.isDigit).reverse)

/-- The disk/index split of `delete_partition` (the index is kept as the raw
string; `operations.rs` does not check it is numeric there). -/
def splitNameDelete (partition : String) : Except String (String × String) :=
  if ("nvme".toList).isPrefixOf partition.toList || ("mmcblk".toList).isPrefixOf partition.toList then
    match rsplitOnceP partition.toList with
    | some ba => Except.ok (String.mk ba.1, String.mk ba.2)
    | none => Except.error ("Invalid partition name format: " ++ partition)
  else
    let ds := trimDigitSplit partition.toList
    Except.ok (String.mk ds.1, String.mk ds.2)

/-- The disk/index split of `resize_partition_and_filesystem`: as for
deletion, but the index is parsed as a number (`parse::<usize>`), which
fails on an empty or non-digit suffix. -/
def splitNameResize (partition : String) : Except String (String × Nat) :=
  if ("nvme".toList).isPrefixOf partition.toList || ("mmcblk".toList).isPrefixOf partition.toList then
    match rsplitOnceP partition.toList with
    | some ba =>
      if ba.2 ≠ [] ∧ ba.2.all Char.isDigit then Except.ok (String.mk ba.1, digitsVal ba.2)
      else Except.error ("invalid partition number")
    | none => Except.error ("Invalid partition name format: " ++ partition)
  else
    let ds := trimDigitSplit partition.toList
    if ds.2 ≠ [] ∧ ds.2.all Char.isDigit then Except.ok (String.mk ds.1, digitsVal ds.2)
    else Except.error ("invalid partition number")

/-- Rust `partition.replace('/', "_")` used for temporary mount points. -/
def replaceSlash (s : String) : String :=
  String.mk (s.toList.map (fun c => if c = ('/') then ('_') else c))

/-- `resize_filesystem` from `operations.rs`: per-filesystem grow/shrink
behaviour.  Returns the action trace and the result. -/
def resize_filesystem (env : Env) (partition : String) (filesystem : Option String)
    (new_size_bytes : Nat) (is_growing : Bool) : List Act × Except String Unit :=
  match filesystem with
  | none =>
    ([notif (Lvl.warning) ("No filesystem detected, skipping filesystem resize")], Except.ok ())
  | some fs =>
    let device_path := "/dev/" ++ partition
    if fs = "ext4" ∨ fs = "ext3" ∨ fs = "ext2" then
      let t :=
        if is_growing then runTool env ("resize2fs") ([device_path]) none
        else runTool env ("resize2fs") ([device_path, toString (new_size_bytes / 1024) ++ "K"]) none
      if !t.2.spawned then (t.1, Except.error ("Failed to execute resize2fs"))
      else if !t.2.success then
        (t.1 ++ [notif (Lvl.error) ("Filesystem resize failed: " ++ t.2.stderr)],
          Except.error ("resize2fs failed"))
      else (t.1, Except.ok ())
    else if fs = "xfs" then
      if !is_growing then
        ([notif (Lvl.error) ("XFS does not support shrinking")],
          Except.error ("XFS cannot be shrunk"))
      else
        let mount_point := "/tmp/disktui_resize_" ++ replaceSlash partition
        let mk := runTool env ("mkdir") (["-p", mount_point]) none
        if !mk.2.spawned then (mk.1, Except.error ("mkdir failed"))
        else
          let mo := runTool env ("mount") ([device_path, mount_point]) none
          if !mo.2.spawned then (mk.1 ++ mo.1, Except.error ("mount failed"))
          else if mo.2.success then
            let rz := runTool env ("xfs_growfs") ([mount_point]) none
            let um := runTool env ("umount") ([mount_point]) none
            let rd := runTool env ("rmdir") ([mount_point]) none
            let cleanup := mk.1 ++ mo.1 ++ rz.1 ++ um.1 ++ rd.1
            if rz.2.spawned then
              if !rz.2.success then
                (cleanup ++ [notif (Lvl.error) ("XFS resize failed: " ++ rz.2.stderr)],
                  Except.error ("xfs_growfs failed"))
              else (cleanup, Except.ok ())
            else
              (cleanup ++ [notif (Lvl.error) ("Failed to resize XFS filesystem")],
                Except.error ("xfs_growfs failed"))
          else
            let rd := runTool env ("rmdir") ([mount_point]) none
            (mk.1 ++ mo.1 ++ rd.1 ++
                [notif (Lvl.error) ("Failed to mount for XFS resize: " ++ mo.2.stderr)],
              Except.error ("Mount failed"))
    else if fs = "ntfs" then
      let t :=
        if is_growing then runTool env ("ntfsresize") (["-f", device_path]) none
        else runTool env ("ntfsresize") (["-f", "-s", toString new_size_bytes, device_path]) none
      if t.2.spawned then
        if !t.2.success then
          (t.1 ++ [notif (Lvl.error) ("NTFS resize failed: " ++ t.2.stderr)],
            Except.error ("ntfsresize failed"))
        else (t.1, Except.ok ())
      else
        (t.1 ++ [notif (Lvl.error) ("ntfsresize not found. Install ntfs-3g package.")],
          Except.error ("ntfsresize not found"))
    else if fs = "btrfs" then
      let mount_point := "/tmp/disktui_resize_" ++ replaceSlash partition
      let mk := runTool env ("mkdir") (["-p", mount_point]) none
      if !mk.2.spawned then (mk.1, Except.error ("mkdir failed"))
      else
        let mo := runTool env ("mount") ([device_path, mount_point]) none
        if !mo.2.spawned then (mk.1 ++ mo.1, Except.error ("mount failed"))
        else if mo.2.success then
          let size_arg := if is_growing then "max" else toString new_size_bytes
          let rz := runTool env ("btrfs") (["filesystem", "resize", size_arg, mount_point]) none
          let um := runTool env ("umount") ([mount_point]) none
          let rd := runTool env ("rmdir") ([mount_point]) none
          let cleanup := mk.1 ++ mo.1 ++ rz.1 ++ um.1 ++ rd.1
          if rz.2.spawned then
            if !rz.2.success then
              (cleanup ++ [notif (Lvl.error) ("Btrfs resize failed: " ++ rz.2.stderr)],
                Except.error ("btrfs resize failed"))
            else (cleanup, Except.ok ())
          else
            (cleanup ++ [notif (Lvl.error) ("Failed to resize Btrfs filesystem")],
              Except.error ("btrfs resize failed"))
        else
          let rd := runTool env ("rmdir") ([mount_point]) none
          (mk.1 ++ mo.1 ++ rd.1 ++
              [notif (Lvl.error) ("Failed to mount for Btrfs resize: " ++ mo.2.stderr)],
            Except.error ("Mount failed"))
    else if fs = "vfat" ∨ fs = "fat32" ∨ fs = "exfat" then
      ([notif (Lvl.warning) (fs ++ " filesystem cannot be easily resized. Consider reformatting.")],
        Except.ok ())
    else
      ([notif (Lvl.warning) ("Filesystem '" ++ fs ++ "' resize not supported. Partition resized only.")],
        Except.ok ())

/-- Serialise the rewritten table for the sfdisk write (the code pushes each
line followed by a newline). -/
def tableToString (lines : List String) : String :=
  lines.foldl (fun acc l => acc ++ l ++ "\n") ("")

/-- The table-dump/rewrite/write phase of `resize_partition_and_filesystem`:
`sfdisk -d`, the line rewrite, `sfdisk --force --no-reread` fed the new
table, `partprobe`. -/
def resize_table_phase (env : Env) (partition disk : String) (part_num : Nat)
    (new_size_bytes : Nat) : List Act × Except String Unit :=
  let dump := runTool env ("sfdisk") (["-d", "/dev/" ++ disk]) none
  if !dump.2.spawned then (dump.1, Except.error ("Failed to dump partition table"))
  else if !dump.2.success then
    (dump.1 ++ [Act.ev (UiEv.progEnd),
        notif (Lvl.error) ("Failed to read partition table: " ++ dump.2.stderr)],
      Except.error ("Failed to read partition table"))
  else
    match rewriteTable disk part_num new_size_bytes (linesOf dump.2.stdout) with
    | Except.error (RErr.invalidFormat) =>
      (dump.1 ++ [Act.ev (UiEv.progEnd)], Except.error ("Invalid partition table format"))
    | Except.error (RErr.noStart) =>
      (dump.1 ++ [Act.ev (UiEv.progEnd), notif (Lvl.error) ("Could not parse partition table")],
        Except.error ("Could not find start sector"))
    | Except.error (RErr.notFound) =>
      (dump.1 ++ [Act.ev (UiEv.progEnd),
          notif (Lvl.error) ("Partition " ++ partition ++ " not found in partition table")],
        Except.error ("Partition not found in table"))
    | Except.ok new_lines =>
      let wr := runTool env ("sfdisk") (["--force", "--no-reread", "/dev/" ++ disk])
        (some (tableToString new_lines))
      if !wr.2.spawned then (dump.1 ++ wr.1, Except.error ("Failed to spawn sfdisk"))
      else if !wr.2.success then
        (dump.1 ++ wr.1 ++ [Act.ev (UiEv.progEnd),
            notif (Lvl.error) ("Failed to resize partition: " ++ wr.2.stderr)],
          Except.error ("Failed to resize partition"))
      else
        let pp := runTool env ("partprobe") (["/dev/" ++ disk]) none
        (dump.1 ++ wr.1 ++ pp.1, Except.ok ())

/-- `resize_partition_and_filesystem` from `operations.rs`: encrypted and
mounted targets are rejected; the name is split into disk and index; the new
size is parsed; the current size and filesystem come from the inventory;
shrinking resizes the filesystem first, growing resizes it after the table
rewrite. -/
def resize_partition_and_filesystem (env : Env) (partition new_size_input : String) :
    List Act × Except String Unit :=
  match validate_device_name partition with
  | Except.error e => ([], Except.error e)
  | Except.ok _ =>
    let il := is_luks_device env partition
    if il.2 then
      (il.1 ++
          [notif (Lvl.error) (partition ++ " is an encrypted partition. Resizing encrypted partitions is not supported as it risks data corruption. To resize: backup data, delete partition, create larger partition, restore data.")],
        Except.error ("Cannot resize encrypted partitions - too risky for data integrity"))
    else
      let im := is_mounted env partition
      match im.2 with
      | Except.error e => (il.1 ++ im.1, Except.error e)
      | Except.ok true =>
        (il.1 ++ im.1 ++
            [notif (Lvl.error) (partition ++ " is mounted. Unmount it first (press 'm')")],
          Except.error ("Partition is mounted"))
      | Except.ok false =>
        let hdr := il.1 ++ im.1 ++ [Act.ev (UiEv.progStart ("Resizing " ++ partition ++ "..."))]
        match splitNameResize partition with
        | Except.error e =>
          if ("nvme".toList).isPrefixOf partition.toList ||
              ("mmcblk".toList).isPrefixOf partition.toList then
            (hdr ++ [Act.ev (UiEv.progEnd)], Except.error e)
          else (hdr, Except.error e)
        | Except.ok dn =>
          match parse_size new_size_input with
          | Except.error e => (hdr, Except.error e)
          | Except.ok new_size_bytes =>
            let lb := list_block_devices env
            match lb.2.find? (fun d => d.name = dn.1) with
            | none => (hdr ++ lb.1, Except.error ("Disk " ++ dn.1 ++ " not found"))
            | some device =>
              match device.partitions.find? (fun p => p.name = partition) with
              | none => (hdr ++ lb.1, Except.error ("Partition " ++ partition ++ " not found"))
              | some current_partition =>
                let current_size := current_partition.size
                let filesystem := current_partition.filesystem
                let is_growing := decide (new_size_bytes > current_size)
                let shrinkPhase : List Act × Except String Unit :=
                  if !is_growing then
                    let rf := resize_filesystem env partition filesystem new_size_bytes false
                    ([notif (Lvl.info) ("Shrinking filesystem...")] ++ rf.1, rf.2)
                  else ([], Except.ok ())
                match shrinkPhase.2 with
                | Except.error e => (hdr ++ lb.1 ++ shrinkPhase.1, Except.error e)
                | Except.ok _ =>
                  let pre := hdr ++ lb.1 ++ shrinkPhase.1 ++
                    [notif (Lvl.info) ("Resizing partition...")]
                  let tp := resize_table_phase env partition dn.1 dn.2 new_size_bytes
                  match tp.2 with
                  | Except.error e => (pre ++ tp.1, Except.error e)
                  | Except.ok _ =>
                    let growPhase : List Act × Except String Unit :=
                      if is_growing then
                        let rf := resize_filesystem env partition filesystem new_size_bytes true
                        ([notif (Lvl.info) ("Expanding filesystem...")] ++ rf.1, rf.2)
                      else ([], Except.ok ())
                    match growPhase.2 with
                    | Except.error e => (pre ++ tp.1 ++ growPhase.1, Except.error e)
                    | Except.ok _ =>
                      (pre ++ tp.1 ++ growPhase.1 ++ [Act.ev (UiEv.progEnd),
                          notif (Lvl.info) ("Successfully resized " ++ partition ++ " to " ++
                            format_bytes new_size_bytes)],
                        Except.ok ())

/-- `unlock_luks_device` from `operations.rs`. -/
def unlock_luks_device (env : Env) (device passphrase mapper_name : String) :
    List Act × Except String Unit :=
  match validate_device_name device with
  | Except.error e => ([], Except.error e)
  | Except.ok _ =>
    match validate_device_name mapper_name with
    | Except.error e => ([], Except.error e)
    | Except.ok _ =>
      let gs := get_luks_status env device
      if gs.2.is_active then
        (gs.1 ++ [notif (Lvl.warning) (device ++ " is already unlocked")], Except.ok ())
      else
        let hdr := gs.1 ++ [Act.ev (UiEv.progStart ("Unlocking " ++ device ++ "..."))]
        let t := runTool env ("cryptsetup") (["open", "/dev/" ++ device, mapper_name])
          (some (passphrase ++ "\n"))
        if !t.2.spawned then (hdr ++ t.1, Except.error ("Failed to spawn cryptsetup"))
        else if !t.2.success then
          let error_msg :=
            if containsSub t.2.stderr ("No key available") ||
                containsSub t.2.stderr ("incorrect passphrase") then "Incorrect passphrase"
            else "Unlock failed: " ++ String.mk (trimChars t.2.stderr.toList)
          (hdr ++ t.1 ++ [Act.ev (UiEv.progEnd), notif (Lvl.error) error_msg],
            Except.error ("Unlock failed"))
        else
          let ud := runTool env ("udevadm") (["settle", "--timeout=10"]) none
          (hdr ++ t.1 ++ ud.1 ++ [Act.ev (UiEv.progEnd),
              notif (Lvl.info) ("Unlocked " ++ device ++ " as /dev/mapper/" ++ mapper_name)],
            Except.ok ())

/-- `lock_luks_device` from `operations.rs`. -/
def lock_luks_device (env : Env) (mapper_name : String) : List Act × Except String Unit :=
  match validate_device_name mapper_name with
  | Except.error e => ([], Except.error e)
  | Except.ok _ =>
    let mapper_path := "/dev/mapper/" ++ mapper_name
    let fm := runTool env ("findmnt") (["-n", mapper_path]) none
    if fm.2.spawned && fm.2.success then
      (fm.1 ++ [notif (Lvl.error) (mapper_name ++ " is mounted. Unmount it first.")],
        Except.error ("Mapper device is mounted"))
    else
      let hdr := fm.1 ++ [Act.ev (UiEv.progStart ("Locking " ++ mapper_name ++ "..."))]
      let cl := runTool env ("cryptsetup") (["close", mapper_name]) none
      if env.lockTimeout then
        (hdr ++ cl.1 ++ [Act.ev (UiEv.progEnd),
            notif (Lvl.error) ("Lock operation timed out. Device may still be in use. Try closing any applications accessing the device.")],
          Except.error ("Lock operation timed out"))
      else if !cl.2.spawned then
        (hdr ++ cl.1 ++ [Act.ev (UiEv.progEnd), notif (Lvl.error) ("Failed to lock: error")],
          Except.error ("Failed to execute cryptsetup close"))
      else if !cl.2.success then
        let msg :=
          if containsSub cl.2.stderr ("busy") || containsSub cl.2.stderr ("in use") then
            "Device is busy. Close any applications using " ++ mapper_name ++ " and try again."
          else "Lock failed: " ++ String.mk (trimChars cl.2.stderr.toList)
        (hdr ++ cl.1 ++ [Act.ev (UiEv.progEnd), notif (Lvl.error) msg],
          Except.error ("Lock failed"))
      else
        let ud := runTool env ("udevadm") (["settle", "--timeout=10"]) none
        (hdr ++ cl.1 ++ ud.1 ++ [Act.ev (UiEv.progEnd),
            notif (Lvl.info) ("Locked " ++ mapper_name)],
          Except.ok ())

/-- `encrypt_partition` from `operations.rs`. -/
def encrypt_partition (env : Env) (partition passphrase : String) :
    List Act × Except String Unit :=
  match validate_device_name partition with
  | Except.error e => ([], Except.error e)
  | Except.ok _ =>
    let im := is_mounted env partition
    match im.2 with
    | Except.error e => (im.1, Except.error e)
    | Except.ok true =>
      (im.1 ++ [notif (Lvl.error) (partition ++ " is mounted. Unmount it first.")],
        Except.error ("Partition is mounted"))
    | Except.ok false =>
      let hdr := im.1 ++ [Act.ev (UiEv.progStart ("Encrypting " ++ partition ++ "..."))]
      let t := runTool env ("cryptsetup")
        (["luksFormat", "--type", "luks2", "--batch-mode", "/dev/" ++ partition])
        (some (passphrase ++ "\n"))
      if !t.2.spawned then (hdr ++ t.1, Except.error ("Failed to spawn cryptsetup"))
      else if !t.2.success then
        (hdr ++ t.1 ++ [Act.ev (UiEv.progEnd),
            notif (Lvl.error) ("Encryption failed: " ++ String.mk (trimChars t.2.stderr.toList))],
          Except.error ("Encryption failed"))
      else
        (hdr ++ t.1 ++ [Act.ev (UiEv.progEnd),
            notif (Lvl.info) ("Encrypted " ++ partition ++ " with LUKS2")],
          Except.ok ())

/-- `wait_for_device`: the bounded polling loop is abstracted to its oracle
outcome; on success one `blockdev --getsize64` verification call is
recorded. -/
def wait_for_device (env : Env) (device_path : String) : List Act × Except String Unit :=
  if env.waitDeviceOk then
    ([Act.tool ("blockdev") (["--getsize64", device_path]) none], Except.ok ())
  else ([], Except.error ("Timeout waiting for device: " ++ device_path))

/-- `encrypt_and_format_partition` from `operations.rs`: encrypt, unlock
into the derived `luks-<partition>` mapper name, wait for the mapper node,
format the mapper. -/
def encrypt_and_format_partition (env : Env) (partition passphrase : String)
    (fs : FilesystemType) : List Act × Except String Unit :=
  match validate_device_name partition with
  | Except.error e => ([], Except.error e)
  | Except.ok _ =>
    let hdr := [Act.ev (UiEv.progStart ("Encrypting " ++ partition ++ "..."))]
    let ep := encrypt_partition env partition passphrase
    match ep.2 with
    | Except.error e => (hdr ++ ep.1, Except.error e)
    | Except.ok _ =>
      let mapper_name := "luks-" ++ partition
      let mid := [notif (Lvl.info) ("Unlocking encrypted partition...")]
      let ul := unlock_luks_device env partition passphrase mapper_name
      match ul.2 with
      | Except.error e => (hdr ++ ep.1 ++ mid ++ ul.1, Except.error e)
      | Except.ok _ =>
        let wd := wait_for_device env ("/dev/mapper/" ++ mapper_name)
        match wd.2 with
        | Except.error e => (hdr ++ ep.1 ++ mid ++ ul.1 ++ wd.1, Except.error e)
        | Except.ok _ =>
          let ud := runTool env ("udevadm") (["settle", "--timeout=10"]) none
          let mid2 := [notif (Lvl.info) ("Formatting with " ++ fs.as_str ++ "...")]
          let fp := format_partition env mapper_name fs
          match fp.2 with
          | Except.error e =>
            (hdr ++ ep.1 ++ mid ++ ul.1 ++ wd.1 ++ ud.1 ++ mid2 ++ fp.1, Except.error e)
          | Except.ok _ =>
            (hdr ++ ep.1 ++ mid ++ ul.1 ++ wd.1 ++ ud.1 ++ mid2 ++ fp.1 ++
                [Act.ev (UiEv.progEnd),
                  notif (Lvl.info) ("Partition " ++ partition ++ " encrypted and formatted successfully")],
              Except.ok ())

/-- `create_encrypted_partition_with_fs` from `operations.rs`. -/
def create_encrypted_partition_with_fs (env : Env) (disk size_input passphrase : String)
    (fs : FilesystemType) : List Act × Except String Unit :=
  let hdr := [Act.ev (UiEv.progStart ("Creating encrypted partition on " ++ disk ++ "..."))]
  let cr := create_partition_raw env disk size_input
  match cr.2 with
  | Except.error e => (hdr ++ cr.1, Except.error e)
  | Except.ok part_name =>
    let ef := encrypt_and_format_partition env part_name passphrase fs
    match ef.2 with
    | Except.error e => (hdr ++ cr.1 ++ ef.1, Except.error e)
    | Except.ok _ =>
      (hdr ++ cr.1 ++ ef.1 ++
          [notif (Lvl.info) ("Created encrypted partition on " ++ disk)],
        Except.ok ())

/-- The wipefs phase of `delete_partition` (best-effort: failures degrade to
warnings). -/
def wipe_luks_header (env : Env) (partition : String) : List Act :=
  let pre := [notif (Lvl.info) ("Wiping LUKS header from " ++ partition ++ "...")]
  let w := runTool env ("wipefs") (["-a", "/dev/" ++ partition]) none
  if w.2.spawned && w.2.success then
    pre ++ w.1 ++ [notif (Lvl.info) ("LUKS header wiped from " ++ partition)]
  else if w.2.spawned then
    pre ++ w.1 ++
      [notif (Lvl.warning) ("Warning: Failed to wipe LUKS header: " ++ w.2.stderr ++ ". Continuing with deletion...")]
  else
    pre ++ w.1 ++
      [notif (Lvl.warning) ("Warning: wipefs not available. Continuing with deletion...")]

/-- `delete_partition` from `operations.rs`: close an unlocked mapper first
(unmounting it when mounted), unmount the raw device when mounted, wipe the
LUKS header when encrypted (warning on failure), split the name and run
`parted rm`, then re-probe (warning on failure). -/
def delete_partition (env : Env) (partition : String) : List Act × Except String Unit :=
  match validate_device_name partition with
  | Except.error e => ([], Except.error e)
  | Except.ok _ =>
    let il := is_luks_device env partition
    let gs := get_luks_status env partition
    let closePhase : List Act × Except String Unit :=
      if gs.2.is_active then
        match gs.2.mapper_name with
        | some mapper_name =>
          let fm := runTool env ("findmnt") (["-n", "/dev/mapper/" ++ mapper_name]) none
          let unm : List Act × Except String Unit :=
            if fm.2.spawned && fm.2.success then unmount_partition env mapper_name
            else ([], Except.ok ())
          match unm.2 with
          | Except.error e => (fm.1 ++ unm.1, Except.error e)
          | Except.ok _ =>
            let lk := lock_luks_device env mapper_name
            (fm.1 ++ unm.1 ++
              [notif (Lvl.info) ("Closing encrypted device " ++ mapper_name ++ "...")] ++ lk.1,
              lk.2)
        | none => ([], Except.ok ())
      else ([], Except.ok ())
    match closePhase.2 with
    | Except.error e => (il.1 ++ gs.1 ++ closePhase.1, Except.error e)
    | Except.ok _ =>
      let im := is_mounted env partition
      match im.2 with
      | Except.error e => (il.1 ++ gs.1 ++ closePhase.1 ++ im.1, Except.error e)
      | Except.ok mounted =>
        let unm : List Act × Except String Unit :=
          if mounted then unmount_partition env partition else ([], Except.ok ())
        match unm.2 with
        | Except.error e =>
          (il.1 ++ gs.1 ++ closePhase.1 ++ im.1 ++ unm.1, Except.error e)
        | Except.ok _ =>
          let wipe := if il.2 then wipe_luks_header env partition else []
          let pre := il.1 ++ gs.1 ++ closePhase.1 ++ im.1 ++ unm.1 ++ wipe
          match splitNameDelete partition with
          | Except.error e => (pre, Except.error e)
          | Except.ok dn =>
            let pre := pre ++ [notif (Lvl.info) ("Deleting partition " ++ partition ++ "...")]
            let rm := runTool env ("parted") (["-s", "/dev/" ++ dn.1, "rm", dn.2]) none
            if !rm.2.spawned then (pre ++ rm.1, Except.error ("Failed to execute parted"))
            else if !rm.2.success then
              (pre ++ rm.1 ++
                  [notif (Lvl.error) ("Delete partition failed: " ++ rm.2.stderr)],
                Except.error ("Delete partition failed: " ++ rm.2.stderr))
            else
              let pp := runTool env ("partprobe") (["/dev/" ++ dn.1]) none
              let warn :=
                if pp.2.spawned && !pp.2.success then
                  [notif (Lvl.warning) ("Warning: partprobe failed: " ++ pp.2.stderr ++ ". Partition deleted but you may need to reboot.")]
                else []
              (pre ++ rm.1 ++ pp.1 ++ warn ++
                  [notif (Lvl.info) ("Successfully deleted partition " ++ partition)],
                Except.ok ())

/-- The per-partition close loop at the start of `format_whole_disk`. -/
def fwd_close_loop (env : Env) : List Partition → List Act × Except String Unit
  | [] => ([], Except.ok ())
  | p :: rest =>
    let gs := get_luks_status env p.name
    if gs.2.is_active then
      match gs.2.mapper_name with
      | some mapper_name =>
        let fm := runTool env ("findmnt") (["-n", "/dev/mapper/" ++ mapper_name]) none
        let unm : List Act × Except String Unit :=
          if fm.2.spawned && fm.2.success then unmount_partition env mapper_name
          else ([], Except.ok ())
        match unm.2 with
        | Except.error e => (gs.1 ++ fm.1 ++ unm.1, Except.error e)
        | Except.ok _ =>
          let lk := lock_luks_device env mapper_name
          match lk.2 with
          | Except.error e =>
            (gs.1 ++ fm.1 ++ unm.1 ++
              [notif (Lvl.info) ("Closing encrypted device " ++ mapper_name ++ "...")] ++ lk.1,
              Except.error e)
          | Except.ok _ =>
            let r := fwd_close_loop env rest
            (gs.1 ++ fm.1 ++ unm.1 ++
              [notif (Lvl.info) ("Closing encrypted device " ++ mapper_name ++ "...")] ++
              lk.1 ++ r.1, r.2)
      | none =>
        let r := fwd_close_loop env rest
        (gs.1 ++ r.1, r.2)
    else
      let r := fwd_close_loop env rest
      (gs.1 ++ r.1, r.2)

/-- `format_whole_disk` from `operations.rs`. -/
def format_whole_disk (env : Env) (disk : String) (fs : FilesystemType) :
    List Act × Except String Unit :=
  match validate_device_name disk with
  | Except.error e => ([], Except.error e)
  | Except.ok _ =>
    let lb := list_block_devices env
    let closeP : List Act × Except String Unit :=
      match lb.2.find? (fun d => d.name = disk) with
      | some device => fwd_close_loop env device.partitions
      | none => ([], Except.ok ())
    match closeP.2 with
    | Except.error e => (lb.1 ++ closeP.1, Except.error e)
    | Except.ok _ =>
      let cmd := (mkfsCmdArgs fs ("")).1
      let w := runTool env ("which") ([cmd]) none
      if !(w.2.spawned && w.2.success) then
        (lb.1 ++ closeP.1 ++ w.1 ++
            [notif (Lvl.error) ("Formatting tool '" ++ cmd ++ "' not found. Install the required package.")],
          Except.error ("Command not found: " ++ cmd))
      else
        let hdr := lb.1 ++ closeP.1 ++ w.1 ++
          [Act.ev (UiEv.progStart ("Formatting " ++ disk ++ " as whole disk..."))]
        let ml := runTool env ("parted") (["-s", "/dev/" ++ disk, "mklabel", "gpt"]) none
        if !ml.2.spawned then (hdr ++ ml.1, Except.error ("Failed to create partition table"))
        else if !ml.2.success then
          (hdr ++ ml.1 ++ [Act.ev (UiEv.progEnd),
              notif (Lvl.error) ("Failed to create partition table: " ++ ml.2.stderr)],
            Except.error ("Failed to create partition table"))
        else
          let mp := runTool env ("parted")
            (["-s", "/dev/" ++ disk, "mkpart", "primary", "0%", "100%"]) none
          if !mp.2.spawned then
            (hdr ++ ml.1 ++ mp.1, Except.error ("Failed to create partition"))
          else if !mp.2.success then
            (hdr ++ ml.1 ++ mp.1 ++ [Act.ev (UiEv.progEnd),
                notif (Lvl.error) ("Failed to create partition: " ++ mp.2.stderr)],
              Except.error ("Failed to create partition"))
          else
            let pp := runTool env ("partprobe") (["/dev/" ++ disk]) none
            let lb2 := list_block_devices_again env
            let pre := hdr ++ ml.1 ++ mp.1 ++ pp.1 ++ lb2.1
            match lb2.2.find? (fun d => d.name = disk) with
            | some device2 =>
              match device2.partitions.head? with
              | some new_partition =>
                let fp := format_partition env new_partition.name fs
                match fp.2 with
                | Except.error e => (pre ++ fp.1, Except.error e)
                | Except.ok _ =>
                  (pre ++ fp.1 ++ [Act.ev (UiEv.progEnd),
                      notif (Lvl.info) ("Formatted " ++ disk ++ " as whole disk with " ++ fs.as_str)],
                    Except.ok ())
              | none =>
                (pre ++ [Act.ev (UiEv.progEnd)], Except.error ("Failed to find new partition"))
            | none =>
              (pre ++ [Act.ev (UiEv.progEnd)], Except.error ("Failed to find new partition"))

/-! ### Concurrency guard (claim C2)

The guard is the shared boolean `operation_in_progress`.  `handler.rs` checks
it (`check_operation_in_progress`) before each destructive dispatch: when set,
a warning notification is sent and nothing else happens; when clear, it is
stored `true` and the operation is spawned as a task that performs its actions
and stores `false` when it completes.  `main.rs` additionally stores `false`
whenever the consumer processes an `EndProgress` event.

The system state carries the flag, the in-flight task scripts (remaining
action lists), the pending event queue, the events the consumer has processed,
a count of processed `EndProgress` events, and the log of tool invocations. -/

/-- Guard-system state. -/
structure Sys where
  flag : Bool
  tasks : List (List Act)
  queue : List UiEv
  processed : List UiEv
  endsConsumed : Nat
  toolLog : List Act
deriving DecidableEq, Repr

/-- The warning `check_operation_in_progress` sends when the flag is set. -/
def warnBusy : UiEv :=
  UiEv.notif (Lvl.warning) ("Operation already in progress")

/-- Rejected dispatch: only the warning notification is queued. -/
def rejectState (s : Sys) : Sys :=
  { s with queue := s.queue ++ [warnBusy] }

/-- Accepted dispatch: the flag is stored `true` and the task spawned. -/
def spawnState (s : Sys) (script : List Act) : Sys :=
  { s with flag := true, tasks := s.tasks ++ [script] }

/-- One step of in-flight task `i`: perform its next action (tools are
logged, events are queued); a task whose script empties completes, which
removes it and stores the flag `false` (the task's final
`operation_flag.store(false)`). -/
def runTaskStep (s : Sys) (i : Nat) : Sys :=
  match s.tasks.get? i with
  | none => s
  | some [] => s
  | some (a :: rest) =>
    let s1 :=
      match a with
      | Act.tool _ _ _ => { s with toolLog := s.toolLog ++ [a] }
      | Act.ev e => { s with queue := s.queue ++ [e] }
    if rest.isEmpty then { s1 with tasks := s1.tasks.eraseIdx i, flag := false }
    else { s1 with tasks := s1.tasks.set i rest }

/-- The consumer (`main.rs` event loop) processes the head event; processing
`EndProgress` stores the flag `false`. -/
def consumeStep (s : Sys) : Sys :=
  match s.queue with
  | [] => s
  | e :: q =>
    let s1 := { s with queue := q, processed := s.processed ++ [e] }
    if e = UiEv.progEnd then { s1 with flag := false, endsConsumed := s1.endsConsumed + 1 }
    else s1

/-- Transition relation of the guard system, parameterised by the set of
dispatchable destructive-operation scripts. -/
inductive GStep (scripts : List (List Act)) : Sys → Sys → Prop
  | dispatchBlocked (s : Sys) (script : List Act) (hs : script ∈ scripts)
      (h : s.flag = true) : GStep scripts s (rejectState s)
  | dispatchOk (s : Sys) (script : List Act) (hs : script ∈ scripts)
      (h : s.flag = false) : GStep scripts s (spawnState s script)
  | taskRun (s : Sys) (i : Nat)
      (h : (match s.tasks.get? i with
            | some (_ :: _) => true
            | _ => false) = true) : GStep scripts s (runTaskStep s i)
  | consume (s : Sys) (h : s.queue ≠ []) : GStep scripts s (consumeStep s)

/-- Reachability in the guard system. -/
def GReach (scripts : List (List Act)) : Sys → Sys → Prop :=
  Relation.ReflTransGen (GStep scripts)

/-- The initial state: flag clear, nothing in flight. -/
def initSys : Sys :=
  ⟨false, [], [], [], 0, []⟩

/-! ### Privileged-helper protocol (claim C6)

`protocol.rs` wire types and the `disktui-helper` main loop. -/

/-- `Request` from `protocol.rs`. -/
inductive Request
  | Mount (device : String)
  | Unmount (device : String)
  | Format (device fs_type : String)
  | FormatWholeDisk (disk fs_type : String)
  | CreatePartitionTable (disk table_type : String)
  | CreatePartition (disk size : String) (fs_type : Option String)
  | CreateEncryptedPartition (disk size passphrase fs_type : String)
  | DeletePartition (partition : String)
  | ResizePartition (partition new_size : String)
  | UnlockLuks (device passphrase mapper_name : String)
  | LockLuks (mapper_name : String)
  | EncryptPartition (partition passphrase : String)
  | EncryptAndFormat (partition passphrase fs_type : String)
  | Shutdown
deriving DecidableEq, Repr

/-- `Response` from `protocol.rs`. -/
inductive Response
  | Ok (data : Option String)
  | Error (message : String)
  | Notification (level : String) (message : String)
  | Progress (action : String) (message : Option String)
deriving DecidableEq, Repr

/-- What a request handler can write through the `ResponseWriter` before its
terminal response: the source handlers only use `notify`, `progress_start`
and `progress_end`. -/
inductive HelperEmit
  | notify (level : String) (message : String)
  | progress_start (message : String)
  | progress_end
deriving DecidableEq, Repr

/-- The wire form of a handler emission (`Response::notification`,
`Response::progress_start`, `Response::progress_end`). -/
def HelperEmit.toResponse : HelperEmit → Response
  | HelperEmit.notify l m => Response.Notification l m
  | HelperEmit.progress_start m => Response.Progress ("start") (some m)
  | HelperEmit.progress_end => Response.Progress ("end") none

/-- A response is terminal when it is `Ok` or `Error`. -/
def isTerminal : Response → Bool
  | Response.Ok _ => true
  | Response.Error _ => true
  | _ => false

/-- The helper `main` loop from `bin/disktui-helper.rs`: blank lines are
skipped; a line that fails to deserialize yields one `Error` response and
processing continues; a `shutdown` request exits the process immediately
(inside `handle_request`, before any terminal response); any other request
runs its handler (modelled by the oracle `handler`, giving the emissions
written through the `ResponseWriter` and the handler result) and is followed
by exactly one terminal `Ok`/`Error` line. -/
def helper_main (decode : String → Except String Request)
    (handler : Request → List HelperEmit × Except String Unit) :
    List String → List Response
  | [] => []
  | line :: rest =>
    if trimChars line.toList = [] then helper_main decode handler rest
    else
      match decode line with
      | Except.error e =>
        Response.Error ("Invalid request: " ++ e) :: helper_main decode handler rest
      | Except.ok (Request.Shutdown) => []
      | Except.ok req =>
        let h := handler req
        (h.1.map HelperEmit.toResponse) ++
          [match h.2 with
            | Except.ok _ => Response.Ok none
            | Except.error e => Response.Error e] ++
          helper_main decode handler rest

/-- One line's contribution per the specification (claim C6), with the
blank-line amendment: blank lines contribute nothing; an undecodable line
contributes exactly one `Error`; a non-shutdown request contributes its
notification/progress emissions strictly followed by its single terminal
response. -/
def lineContribution (decode : String → Except String Request)
    (handler : Request → List HelperEmit × Except String Unit) (line : String) :
    List Response :=
  if trimChars line.toList = [] then []
  else
    match decode line with
    | Except.error e => [Response.Error ("Invalid request: " ++ e)]
    | Except.ok (Request.Shutdown) => []
    | Except.ok req =>
      let h := handler req
      (h.1.map HelperEmit.toResponse) ++
        [match h.2 with
          | Except.ok _ => Response.Ok none
          | Except.error e => Response.Error e]

/-- A line is a shutdown request: non-blank and decoding to `shutdown`. -/
def isShutdownLine (decode : String → Except String Request) (line : String) : Bool :=
  !(trimChars line.toList = []) && decide (decode line = Except.ok (Request.Shutdown))

/-- The specification-side description of the whole stream (claim C6, with
the blank-line amendment): concatenate the per-line contributions of the
lines before the first shutdown line. -/
def helper_spec (decode : String → Except String Request)
    (handler : Request → List HelperEmit × Except String Unit) (lines : List String) :
    List Response :=
  ((lines.takeWhile (fun l => !(isShutdownLine decode l))).map
    (lineContribution decode handler)).flatten

/-! ### Observers and claim-side predicates -/

/-- The claim's literal character class `[A-Za-z0-9_-]` (ASCII alphanumeric,
dash, underscore). -/
def claimCharOk (c : Char) : Bool :=
  c.isAlphanum || c == ('-') || c == ('_')

/-- An action is an external tool invocation. -/
def isToolAct : Act → Bool
  | Act.tool _ _ _ => true
  | Act.ev _ => false

/-- A trace reaches no external tool. -/
def noTools (tr : List Act) : Bool :=
  tr.all (fun a => !(isToolAct a))

/-- The filesystem-maker commands. -/
def mkfsCmds : List String :=
  ["mkfs.ext4", "mkfs.fat", "mkfs.ntfs", "mkfs.exfat", "mkfs.btrfs", "mkfs.xfs"]

/-- An action is a maker-tool invocation. -/
def isMakerAct : Act → Bool
  | Act.tool c _ _ => mkfsCmds.contains c
  | Act.ev _ => false

/-- Every maker invocation in the trace targets exactly `path` (makers take
the device path as last argument). -/
def makerOnlyOn (tr : List Act) (path : String) : Bool :=
  tr.all (fun a =>
    match a with
    | Act.tool c args _ => !(mkfsCmds.contains c) || args.getLast? == some path
    | Act.ev _ => true)

/-- Some maker invocation in the trace targets `path`. -/
def makerOn (tr : List Act) (path : String) : Bool :=
  tr.any (fun a =>
    match a with
    | Act.tool c args _ => mkfsCmds.contains c && args.getLast? == some path
    | Act.ev _ => false)

/-- An action is a filesystem-resize tool invocation (the per-filesystem
resize tools of `resize_filesystem`). -/
def isFsResizeAct : Act → Bool
  | Act.tool c _ _ => c == ("resize2fs") || c == ("xfs_growfs") || c == ("ntfsresize") || c == ("btrfs")
  | Act.ev _ => false

/-- An action is the partition-table write (`sfdisk --force --no-reread`). -/
def isTableWriteAct : Act → Bool
  | Act.tool c args _ => c == ("sfdisk") && args.head? == some ("--force")
  | Act.ev _ => false

/-- Every `p`-action in the trace occurs strictly before every `q`-action. -/
def allBefore (p q : Act → Bool) (tr : List Act) : Prop :=
  ∀ i j, (hi : i < tr.length) → (hj : j < tr.length) →
    p (tr.get ⟨i, hi⟩) = true → q (tr.get ⟨j, hj⟩) = true → i < j

/-- An action is a partition-editor invocation (`parted`). -/
def isPartedAct : Act → Bool
  | Act.tool c _ _ => c == ("parted")
  | Act.ev _ => false

/-- No action of the trace satisfies `p`. -/
def noneSat (p : Act → Bool) (tr : List Act) : Bool :=
  tr.all (fun a => !(p a))

/-- An action is a detached (lazy) unmount invocation (`umount -l`). -/
def isLazyUmountAct : Act → Bool
  | Act.tool c args _ => c == ("umount") && args.head? == some ("-l")
  | Act.ev _ => false

/-- The device field of a descriptor line (first piece before `:` or `,`,
trimmed). -/
def deviceFieldOf (line : String) : List Char :=
  trimChars ((splitLine line).headD [])

/-- The `start` attribute token of a descriptor line (as the rewrite
extracts it). -/
def startTokOf (line : String) : List Char :=
  (collectAttrs ((splitLine line).tail)).1

/-- The non-`start`, non-`size` attribute tokens of a descriptor line. -/
def otherAttrsOf (line : String) : List (List Char) :=
  (collectAttrs ((splitLine line).tail)).2

/-- Success projection of a parse result (the parsers' error messages
differ; the refinement claim compares failure parity and success values). -/
def okOf (r : Except String Nat) : Option Nat :=
  match r with
  | Except.ok n => some n
  | Except.error _ => none

/-- `i` steps of task 0 in the guard system. -/
def runK (s : Sys) : Nat → Sys
  | 0 => s
  | k + 1 => runK (runTaskStep s 0) k

/-- `k` consumer steps in the guard system. -/
def consK (s : Sys) : Nat → Sys
  | 0 => s
  | k + 1 => consK (consumeStep s) k

/-- Task `i` of the state has a pending action. -/
def taskReady (s : Sys) (i : Nat) : Bool :=
  match s.tasks.get? i with
  | some (_ :: _) => true
  | _ => false

/-! ### Concrete environments for witnesses and counterexamples -/

/-- Path query answering false exactly for `/dev/mapper/...` paths (no
mapper nodes are present on a plain system). -/
def noMapperPath (p : String) : Bool :=
  !(("/dev/mapper/".toList).isPrefixOf p.toList)

/-- Plain environment: nothing encrypted (`cryptsetup` fails), nothing
mounted (`findmnt` fails), no mapper nodes, every other tool succeeds. -/
def envPlain : Env where
  run := fun cmd _ _ =>
    if cmd = "cryptsetup" ∨ cmd = "findmnt" then ⟨true, false, "", ""⟩
    else ⟨true, true, "", ""⟩
  pathExists := noMapperPath
  mapperDirOk := true
  mapperEntries := []
  devices := []
  devices2 := []
  umountTimeout := false
  lockTimeout := false
  waitDeviceOk := true

/-- Environment for the resize witness: `sdb1` (3 GB, ext4) on a 4 GB disk
`sdb`; the sfdisk dump holds its descriptor line; nothing mounted or
encrypted. -/
def envResize : Env where
  run := fun cmd args _ =>
    if cmd = "cryptsetup" ∨ cmd = "findmnt" then ⟨true, false, "", ""⟩
    else if cmd = "sfdisk" ∧ args.headD "" = "-d" then
      ⟨true, true, "label: gpt\n/dev/sdb1 : start= 2048, size= 5860532, type=83\n", ""⟩
    else ⟨true, true, "", ""⟩
  pathExists := noMapperPath
  mapperDirOk := true
  mapperEntries := []
  devices := [⟨"sdb", 4000000000, none, none, [⟨"sdb1", 3000000000, some ("ext4"), none, false⟩]⟩]
  devices2 := [⟨"sdb", 4000000000, none, none, [⟨"sdb1", 3000000000, some ("ext4"), none, false⟩]⟩]
  umountTimeout := false
  lockTimeout := false
  waitDeviceOk := true

/-- Environment for the format-redirect witness: `sdb1` is a LUKS container
unlocked as mapper `luks-sdb1` (the registry's `cryptsetup status` reports
backing device `/dev/sdb1`); nothing mounted. -/
def envLuksUnlocked : Env where
  run := fun cmd args _ =>
    if cmd = "findmnt" then ⟨true, false, "", ""⟩
    else if cmd = "cryptsetup" ∧ args.headD "" = "status" then
      ⟨true, true, "  device:  /dev/sdb1\n", ""⟩
    else ⟨true, true, "", ""⟩
  pathExists := fun _ => true
  mapperDirOk := true
  mapperEntries := ["luks-sdb1"]
  devices := []
  devices2 := []
  umountTimeout := false
  lockTimeout := false
  waitDeviceOk := true

/-- As `envLuksUnlocked` but the mapper device is mounted (`findmnt`
succeeds). -/
def envLuksUnlockedMounted : Env :=
  { envLuksUnlocked with
    run := fun cmd args _ =>
      if cmd = "cryptsetup" ∧ args.headD "" = "status" then
        ⟨true, true, "  device:  /dev/sdb1\n", ""⟩
      else ⟨true, true, "", ""⟩ }

/-- `sdb1` is a LUKS container with no active mapping (locked). -/
def envLuksLocked : Env :=
  { envLuksUnlocked with mapperEntries := [] }

/-- Plain mounted environment: not encrypted, `findmnt` succeeds, every tool
succeeds. -/
def envMounted : Env :=
  { envPlain with
    run := fun cmd _ _ =>
      if cmd = "cryptsetup" then ⟨true, false, "", ""⟩ else ⟨true, true, "", ""⟩ }

/-- Mounted, and the first unmount exceeds its bounded timeout; the lazy
unmount succeeds. -/
def envUmTimeout : Env :=
  { envMounted with umountTimeout := true }

/-- Mounted, and the plain unmount fails with a busy message; the lazy
unmount succeeds. -/
def envUmBusy : Env :=
  { envPlain with
    run := fun cmd args _ =>
      if cmd = "cryptsetup" then ⟨true, false, "", ""⟩
      else if cmd = "umount" ∧ args.headD "" ≠ "-l" then
        ⟨true, false, "", "umount: /mnt/sdc1: target is busy."⟩
      else ⟨true, true, "", ""⟩ }

/-- Mounted, the unmount times out and the lazy unmount also fails. -/
def envUmLazyFail : Env :=
  { envPlain with
    umountTimeout := true
    run := fun cmd _ _ =>
      if cmd = "cryptsetup" ∨ cmd = "umount" then ⟨true, false, "", "fail"⟩
      else ⟨true, true, "", ""⟩ }

/-- Environment for the create-partition scenario: `sdb` is a 1 GB disk with
no partitions; after `mkpart` the re-read shows the new 500 MB `sdb1`. -/
def envSdb : Env where
  run := fun cmd _ _ =>
    if cmd = "cryptsetup" ∨ cmd = "findmnt" then ⟨true, false, "", ""⟩
    else ⟨true, true, "", ""⟩
  pathExists := noMapperPath
  mapperDirOk := true
  mapperEntries := []
  devices := [⟨"sdb", 1000000000, none, none, []⟩]
  devices2 := [⟨"sdb", 1000000000, none, none, [⟨"sdb1", 500000000, none, none, false⟩]⟩]
  umountTimeout := false
  lockTimeout := false
  waitDeviceOk := true

/-- The format-operation script dispatched by the key handler: the operation
trace followed by the `Refresh` the task sends before clearing the flag. -/
def fmtScript : List Act :=
  (format_partition envPlain ("sdb1") (FilesystemType.Ext4)).1 ++ [Act.ev (UiEv.refresh)]

/-- The mount-operation script dispatched by the key handler. -/
def mntScript : List Act :=
  (mount_partition envPlain ("sdb1")).1 ++ [Act.ev (UiEv.refresh)]

/-- The destructive-operation scripts used in the guard counterexample. -/
def cexScripts : List (List Act) :=
  [fmtScript, mntScript]

/-- A decoder that rejects every line (the serde failure on a blank line). -/
def decodeNone : String → Except String Request :=
  fun _ => Except.error ("expected value")
/-- The trivial request handler: no emissions, success. -/
def handlerNone : Request → List HelperEmit × Except String Unit :=
  fun _ => ([], Except.ok ())
/-- A concrete decoder for the helper witness: `shutdown` and `mount` lines
decode, everything else fails. -/
def decodeW : String → Except String Request :=
  fun l =>
    if l = "shutdown" then Except.ok (Request.Shutdown)
    else if l = "mount" then Except.ok (Request.Mount ("sdb1"))
    else Except.error ("unknown op")
/-- A concrete handler for the helper witness: one notification, success. -/
def handlerW : Request → List HelperEmit × Except String Unit :=
  fun _ => ([HelperEmit.notify ("info") ("mounted")], Except.ok ())

/-! ## Theorems -/

/-- A failed validation aborts `mount_partition` before any tool runs. -/
theorem mount_partition_invalid (env : Env) (name msg : String)
    (h : validate_device_name name = Except.error msg) :
    (mount_partition env name).2 = Except.error msg ∧
      noTools (mount_partition env name).1 = true := by
  simp [mount_partition, h, noTools]

/-- A failed validation aborts `unmount_partition` before any tool runs. -/
theorem unmount_partition_invalid (env : Env) (name msg : String)
    (h : validate_device_name name = Except.error msg) :
    (unmount_partition env name).2 = Except.error msg ∧
      noTools (unmount_partition env name).1 = true := by
  simp [unmount_partition, h, noTools]

/-- A failed validation aborts `format_partition` before any tool runs. -/
theorem format_partition_invalid (env : Env) (name msg : String) (fs : FilesystemType)
    (h : validate_device_name name = Except.error msg) :
    (format_partition env name fs).2 = Except.error msg ∧
      noTools (format_partition env name fs).1 = true := by
  simp [format_partition, h, noTools]

/-- A failed validation aborts `format_whole_disk` before any tool runs. -/
theorem format_whole_disk_invalid (env : Env) (name msg : String) (fs : FilesystemType)
    (h : validate_device_name name = Except.error msg) :
    (format_whole_disk env name fs).2 = Except.error msg ∧
      noTools (format_whole_disk env name fs).1 = true := by
  simp [format_whole_disk, h, noTools]

/-- A failed validation aborts `create_partition_table` before any tool
runs. -/
theorem create_partition_table_invalid (env : Env) (name tt msg : String)
    (h : validate_device_name name = Except.error msg) :
    (create_partition_table env name tt).2 = Except.error msg ∧
      noTools (create_partition_table env name tt).1 = true := by
  simp [create_partition_table, h, noTools]

/-- A failed validation aborts `create_partition_raw` before any tool
runs. -/
theorem create_partition_raw_invalid (env : Env) (name sz msg : String)
    (h : validate_device_name name = Except.error msg) :
    (create_partition_raw env name sz).2 = Except.error msg ∧
      noTools (create_partition_raw env name sz).1 = true := by
  simp [create_partition_raw, h, noTools]

/-- A failed validation aborts `create_partition_with_fs` before any tool
runs (only the progress event precedes the validation). -/
theorem create_partition_with_fs_invalid (env : Env) (name sz msg : String) (fs : FilesystemType)
    (h : validate_device_name name = Except.error msg) :
    (create_partition_with_fs env name sz fs).2 = Except.error msg ∧
      noTools (create_partition_with_fs env name sz fs).1 = true := by
  simp [create_partition_with_fs, create_partition_raw, h, noTools, isToolAct]

/-- A failed validation aborts `delete_partition` before any tool runs. -/
theorem delete_partition_invalid (env : Env) (name msg : String)
    (h : validate_device_name name = Except.error msg) :
    (delete_partition env name).2 = Except.error msg ∧
      noTools (delete_partition env name).1 = true := by
  simp [delete_partition, h, noTools]

/-- A failed validation aborts `resize_partition_and_filesystem` before any
tool runs. -/
theorem resize_invalid (env : Env) (name sz msg : String)
    (h : validate_device_name name = Except.error msg) :
    (resize_partition_and_filesystem env name sz).2 = Except.error msg ∧
      noTools (resize_partition_and_filesystem env name sz).1 = true := by
  simp [resize_partition_and_filesystem, h, noTools]

/-- A failed validation aborts `encrypt_partition` before any tool runs. -/
theorem encrypt_partition_invalid (env : Env) (name pw msg : String)
    (h : validate_device_name name = Except.error msg) :
    (encrypt_partition env name pw).2 = Except.error msg ∧
      noTools (encrypt_partition env name pw).1 = true := by
  simp [encrypt_partition, h, noTools]

/-- A failed validation of the device name aborts `unlock_luks_device`
before any tool runs. -/
theorem unlock_invalid_device (env : Env) (name pw mn msg : String)
    (h : validate_device_name name = Except.error msg) :
    (unlock_luks_device env name pw mn).2 = Except.error msg ∧
      noTools (unlock_luks_device env name pw mn).1 = true := by
  simp [unlock_luks_device, h, noTools]

/-- A failed validation of the mapper name aborts `unlock_luks_device`
before any tool runs. -/
theorem unlock_invalid_mapper (env : Env) (name pw mn msg : String)
    (h : validate_device_name mn = Except.error msg) :
    (unlock_luks_device env name pw mn).2 = Except.error msg ∨
      ∃ m2, (unlock_luks_device env name pw mn).2 = Except.error m2 ∧
        validate_device_name name = Except.error m2 := by
  unfold unlock_luks_device
  cases hv : validate_device_name name with
  | error e => exact Or.inr ⟨e, by simp, rfl⟩
  | ok _ => simp [h]

/-- When the mapper name fails validation, `unlock_luks_device` invokes no
tool. -/
theorem unlock_invalid_mapper_notools (env : Env) (name pw mn msg : String)
    (h : validate_device_name mn = Except.error msg) :
    noTools (unlock_luks_device env name pw mn).1 = true := by
  unfold unlock_luks_device
  cases hv : validate_device_name name with
  | error e => simp [noTools]
  | ok _ => simp [h, noTools]

/-- A failed validation aborts `lock_luks_device` before any tool runs. -/
theorem lock_invalid (env : Env) (name msg : String)
    (h : validate_device_name name = Except.error msg) :
    (lock_luks_device env name).2 = Except.error msg ∧
      noTools (lock_luks_device env name).1 = true := by
  simp [lock_luks_device, h, noTools]

/-- A failed validation aborts `encrypt_and_format_partition` before any
tool runs. -/
theorem encrypt_and_format_invalid (env : Env) (name pw msg : String) (fs : FilesystemType)
    (h : validate_device_name name = Except.error msg) :
    (encrypt_and_format_partition env name pw fs).2 = Except.error msg ∧
      noTools (encrypt_and_format_partition env name pw fs).1 = true := by
  simp [encrypt_and_format_partition, h, noTools]

/-- A failed validation of the disk aborts
`create_encrypted_partition_with_fs` before any tool runs. -/
theorem create_encrypted_invalid (env : Env) (name sz pw msg : String) (fs : FilesystemType)
    (h : validate_device_name name = Except.error msg) :
    (create_encrypted_partition_with_fs env name sz pw fs).2 = Except.error msg ∧
      noTools (create_encrypted_partition_with_fs env name sz pw fs).1 = true := by
  simp [create_encrypted_partition_with_fs, create_partition_raw, h, noTools, isToolAct]

/-- `hasSub` decides the infix relation. -/
theorem hasSub_iff (hay needle : List Char) : hasSub hay needle = true ↔ needle <:+: hay := by
  induction hay with
  | nil =>
    simp [hasSub, List.isEmpty_iff]
  | cons h t ih =>
    simp [hasSub, List.isPrefixOf_iff_prefix, ih, List.infix_cons_iff]

/-- `containsSub` decides the substring relation on the character lists. -/
theorem containsSub_iff (s sub : String) : containsSub s sub = true ↔ (sub.toList) <:+: s.toList :=
  hasSub_iff _ _

/-- The validator's acceptance condition, read off its four checks. -/
theorem validate_ok_iff (name : String) :
    (validate_device_name name = Except.ok ()) ↔
      (name.toList.isEmpty = false ∧ containsSub name ("..") = false ∧
        name.toList.contains ('/') = false ∧
        name.toList.all (fun c => rustIsAlphanumeric c || c == ('-') || c == ('_')) = true ∧
        utf8Len name.toList ≤ 32) := by
  unfold validate_device_name
  split_ifs with h1 h2 h3 h4
  · refine ⟨(fun h => nomatch h), fun hc => ?_⟩
    rw [h1] at hc
    cases hc.1
  · refine ⟨(fun h => nomatch h), fun hc => ?_⟩
    rcases Bool.or_eq_true _ _ |>.mp h2 with h | h
    · rw [h] at hc; cases hc.2.1
    · rw [h] at hc; cases hc.2.2.1
  · rw [Bool.not_eq_true'] at h3
    refine ⟨(fun h => nomatch h), fun hc => ?_⟩
    rw [h3] at hc
    cases hc.2.2.2.1
  · exact ⟨(fun h => nomatch h), fun hc => absurd hc.2.2.2.2 (by omega)⟩
  · refine ⟨fun _ => ⟨Bool.eq_false_iff.mpr h1, ?_, ?_, ?_, by omega⟩, fun _ => rfl⟩
    · exact (Bool.or_eq_false_iff.mp (Bool.eq_false_iff.mpr h2)).1
    · exact (Bool.or_eq_false_iff.mp (Bool.eq_false_iff.mpr h2)).2
    · cases hb : name.toList.all (fun c => rustIsAlphanumeric c || c == ('-') || c == ('_')) with
      | true => rfl
      | false => exact absurd (by rw [hb]; rfl) h3

/-- **C1 (amended).**  The device-name validator accepts a name exactly when
it is non-empty, free of `..` and `/`, at most 32 bytes long, and made of
characters that are alphanumeric in the Unicode sense (Rust
`char::is_alphanumeric`) or `-` or `_`; the helper binary's validator
accepts exactly the same names; and every dispatcher operation, given a
device-name argument the validator rejects, fails with that validation
error and performs no external tool invocation at all.  (The claim's ASCII
character class `[A-Za-z0-9_-]` is amended to Unicode alphanumerics plus
`-`/`_`: the validator accepts non-ASCII letters such as `é`, see the
counterexample.  The characterization is stated over names drawn from the
Basic Latin and Latin-1 blocks, where the model of Rust's classifier is
exact.) -/
theorem c1_validator_and_dispatch :
    (∀ name : String, (∀ c ∈ name.toList, c.val < 0x100) →
      ((validate_device_name name = Except.ok ()) ↔
        (name.toList ≠ [] ∧
          ¬ (("..".toList) <:+: name.toList) ∧
          ('/') ∉ name.toList ∧
          utf8Len name.toList ≤ 32 ∧
          ∀ c ∈ name.toList, rustIsAlphanumeric c = true ∨ c = ('-') ∨ c = ('_')))) ∧
    (∀ name : String,
      (validate_device_name name).isOk = (helper_validate_device_name name).isOk) ∧
    (∀ env name msg, validate_device_name name = Except.error msg →
      ((mount_partition env name).2 = Except.error msg ∧
          noTools (mount_partition env name).1 = true) ∧
        ((unmount_partition env name).2 = Except.error msg ∧
          noTools (unmount_partition env name).1 = true) ∧
        (∀ fs, (format_partition env name fs).2 = Except.error msg ∧
          noTools (format_partition env name fs).1 = true) ∧
        (∀ fs, (format_whole_disk env name fs).2 = Except.error msg ∧
          noTools (format_whole_disk env name fs).1 = true) ∧
        (∀ tt, (create_partition_table env name tt).2 = Except.error msg ∧
          noTools (create_partition_table env name tt).1 = true) ∧
        (∀ sz, (create_partition_raw env name sz).2 = Except.error msg ∧
          noTools (create_partition_raw env name sz).1 = true) ∧
        (∀ sz fs, (create_partition_with_fs env name sz fs).2 = Except.error msg ∧
          noTools (create_partition_with_fs env name sz fs).1 = true) ∧
        ((delete_partition env name).2 = Except.error msg ∧
          noTools (delete_partition env name).1 = true) ∧
        (∀ sz, (resize_partition_and_filesystem env name sz).2 = Except.error msg ∧
          noTools (resize_partition_and_filesystem env name sz).1 = true) ∧
        (∀ pw, (encrypt_partition env name pw).2 = Except.error msg ∧
          noTools (encrypt_partition env name pw).1 = true) ∧
        (∀ pw mn, (unlock_luks_device env name pw mn).2 = Except.error msg ∧
          noTools (unlock_luks_device env name pw mn).1 = true) ∧
        (∀ dev pw, noTools (unlock_luks_device env dev pw name).1 = true) ∧
        ((lock_luks_device env name).2 = Except.error msg ∧
          noTools (lock_luks_device env name).1 = true) ∧
        (∀ pw fs, (encrypt_and_format_partition env name pw fs).2 = Except.error msg ∧
          noTools (encrypt_and_format_partition env name pw fs).1 = true) ∧
        (∀ sz pw fs, (create_encrypted_partition_with_fs env name sz pw fs).2 = Except.error msg ∧
          noTools (create_encrypted_partition_with_fs env name sz pw fs).1 = true)) := by
  refine ⟨?_, ?_, ?_⟩
  · intro name _
    rw [validate_ok_iff]
    constructor
    · rintro ⟨e1, e2, e3, e4, e5⟩
      refine ⟨?_, ?_, ?_, e5, ?_⟩
      · simpa [List.isEmpty_iff] using e1
      · intro hin
        rw [(containsSub_iff _ _).mpr hin] at e2
        cases e2
      · intro hin
        have hc : name.toList.contains ('/') = true := List.elem_iff.mpr hin
        rw [hc] at e3
        cases e3
      · intro c hc
        have := List.all_eq_true.mp e4 c hc
        rcases Bool.or_eq_true _ _ |>.mp this with h | h
        · rcases Bool.or_eq_true _ _ |>.mp h with h | h
          · exact Or.inl h
          · exact Or.inr (Or.inl (by simpa using h))
        · exact Or.inr (Or.inr (by simpa using h))
    · rintro ⟨e1, e2, e3, e5, e4⟩
      refine ⟨?_, ?_, ?_, ?_, e5⟩
      · simpa [List.isEmpty_iff] using e1
      · rw [Bool.eq_false_iff]
        intro hc
        exact e2 ((containsSub_iff _ _).mp hc)
      · rw [Bool.eq_false_iff]
        intro hc
        exact e3 (List.elem_iff.mp hc)
      · refine List.all_eq_true.mpr (fun c hc => ?_)
        rcases e4 c hc with h | h | h
        · simp [h]
        · simp [h]
        · simp [h]
  · intro name
    unfold validate_device_name helper_validate_device_name
    split_ifs <;> rfl
  · intro env name msg h
    exact ⟨mount_partition_invalid env name msg h,
      unmount_partition_invalid env name msg h,
      fun fs => format_partition_invalid env name msg fs h,
      fun fs => format_whole_disk_invalid env name msg fs h,
      fun tt => create_partition_table_invalid env name tt msg h,
      fun sz => create_partition_raw_invalid env name sz msg h,
      fun sz fs => create_partition_with_fs_invalid env name sz msg fs h,
      delete_partition_invalid env name msg h,
      fun sz => resize_invalid env name sz msg h,
      fun pw => encrypt_partition_invalid env name pw msg h,
      fun pw mn => unlock_invalid_device env name pw mn msg h,
      fun dev pw => unlock_invalid_mapper_notools env dev pw name msg h,
      lock_invalid env name msg h,
      fun pw fs => encrypt_and_format_invalid env name pw msg fs h,
      fun sz pw fs => create_encrypted_invalid env name sz pw msg fs h⟩

/-- Witness for C1: the validator accepts `sda1`; given the rejected name
`a/b`, `format_partition` fails with the validation error and reaches no
tool. -/
theorem c1_validator_and_dispatch_witness :
    validate_device_name ("sda1") = Except.ok () ∧
      (format_partition envPlain ("a/b") (FilesystemType.Ext4)).2 =
        Except.error ("Invalid device name: contains illegal characters") ∧
      noTools (format_partition envPlain ("a/b") (FilesystemType.Ext4)).1 = true := by
  refine ⟨(c1_validator_and_dispatch.1 ("sda1") (by decide)).mpr (by decide), ?_, ?_⟩
  · exact ((c1_validator_and_dispatch.2.2 envPlain ("a/b")
      ("Invalid device name: contains illegal characters") (by decide)).2.2.1
      (FilesystemType.Ext4)).1
  · exact ((c1_validator_and_dispatch.2.2 envPlain ("a/b")
      ("Invalid device name: contains illegal characters") (by decide)).2.2.1
      (FilesystemType.Ext4)).2

/-- Counterexample for C1 as stated: `é` is outside the claimed class
`[A-Za-z0-9_-]`, yet the validator accepts the name `é` (Rust
`char::is_alphanumeric` is Unicode-wide). -/
theorem c1_counterexample :
    validate_device_name ("é") = Except.ok () ∧ claimCharOk ('é') = false := by
  decide

/-- A list whose head is not `'B'` is unchanged by stripping leading
`'B'`s. -/
theorem dropWhileB_of_head_ne (r : List Char) (h : r.head? ≠ some ('B')) :
    r.dropWhile (fun c => c == ('B')) = r := by
  cases r with
  | nil => rfl
  | cons a t =>
    have ha : (a == ('B')) = false := by
      refine beq_eq_false_iff_ne.mpr (fun he => h ?_)
      rw [he]
      rfl
    simp [List.dropWhile, ha]

/-- **C5 (amended).**  The in-process size parser behaves exactly as the
specification's suffix grammar *after stripping all trailing `B`
characters* from the normalised input (the code's `trim_end_matches('B')`;
without the amendment a bare-`B` input such as `10B` would have to be a
parse error, see the counterexample).  Concretely: `100M` parses to
10^8 bytes, `2.5G` to 2.5·10^9, `1T` to 10^12, `abc` fails; a blank size
input in the partition-creation context resolves to exactly the free
space; and the parsed value is the product of the numeric part and the
unit multiplier rounded to the nearest integer (half up), saturated to the
`u64` range. -/
theorem c5_parse_size :
    (∀ s : String, okOf (parse_size s) =
      okOf (claimSizeCore
        (((trimUpChars s).reverse.dropWhile (fun c => c == ('B'))).reverse))) ∧
    parse_size ("100M") = Except.ok (100000000) ∧
    parse_size ("2.5G") = Except.ok (2500000000) ∧
    parse_size ("1T") = Except.ok (1000000000000) ∧
    okOf (parse_size ("abc")) = none ∧
    (∀ free : Nat, requested_size_of free ("") = Except.ok free) ∧
    (∀ (a : Int) (k unit : Nat), 0 ≤ a →
      sizeFromParts a k unit =
        min ((round (((a : ℚ) * (unit : ℚ)) / 10 ^ k)).toNat) (2 ^ 64 - 1)) := by
  refine ⟨?_, by decide, by decide, by decide, by decide, ?_, ?_⟩
  · intro s
    unfold parse_size claimSizeCore
    simp only [List.reverse_reverse]
    cases parseDec
        ((unitSplitRev ((trimUpChars s).reverse.dropWhile (fun c => c == ('B')))).1.reverse) with
    | none => rfl
    | some d => rfl
  · intro free
    rfl
  · intro a k unit ha
    rcases Int.eq_ofNat_of_zero_le ha with ⟨m, rfl⟩
    unfold sizeFromParts
    have hn : ¬ ((m : Int) * (unit : Int) < 0) := not_lt.mpr (by positivity)
    simp only [hn, if_false]
    congr 1
    have hmu : ((m : Int) * (unit : Int)).toNat = m * unit := by
      rw [show ((m : Int) * (unit : Int)) = ((m * unit : Nat) : Int) by push_cast; ring]
      rfl
    rw [hmu]
    have hk : ((10 : ℚ) ^ k) ≠ 0 := by positivity
    have h1 : (((m : Int) : ℚ)) * (unit : ℚ) / 10 ^ k + 1 / 2 =
        (((2 * (m * unit) + 10 ^ k : Nat) : Int) : ℚ) / ((2 * 10 ^ k : Nat) : ℚ) := by
      push_cast
      field_simp
      ring
    rw [round_eq, h1, Rat.floor_intCast_div_natCast]
    rw [show ((2 * (m * unit) + 10 ^ k : Nat) : Int) / ((2 * 10 ^ k : Nat) : Int) =
        (((2 * (m * unit) + 10 ^ k) / (2 * 10 ^ k) : Nat) : Int) from rfl]
    rfl

/-- Witness for C5: the rounding characterization applied at the value
5 × 1000 / 10. -/
theorem c5_parse_size_witness :
    (0 : Int) ≤ 5 ∧
      sizeFromParts 5 1 1000 =
        min ((round ((((5 : Int) : ℚ) * ((1000 : Nat) : ℚ)) / 10 ^ (1 : Nat))).toNat)
          (2 ^ 64 - 1) :=
  ⟨by decide, c5_parse_size.2.2.2.2.2.2 5 1 1000 (by decide)⟩

/-- Counterexample for C5 as stated: `10B` carries none of the listed unit
suffixes, so per the claim its whole numeric part `10B` must fail to parse;
the code instead strips the trailing `B` and returns 10. -/
theorem c5_counterexample :
    parse_size ("10B") = Except.ok (10) ∧ claimC5spec ("10B") = Except.error ("parse error") := by
  decide

/-- **C10 (amended).**  The in-process and helper size parsers agree (same
failure behaviour, same byte count on success) on every input whose
normalised form does not end in a bare `B`: that is, whenever the
(trimmed, upper-cased) input does not end with `B`, or ends with exactly
`KB`, `MB`, `GB` or `TB`.  They differ on bare-`B` suffixes, which the
in-process parser strips and the helper rejects (see the
counterexample). -/
theorem c10_parser_equivalence :
    ∀ s : String,
      ((trimUpChars s).reverse.head? ≠ some ('B') ∨
        ∃ u rest, (trimUpChars s).reverse = ('B') :: u :: rest ∧
          (u = ('K') ∨ u = ('M') ∨ u = ('G') ∨ u = ('T'))) →
      okOf (parse_size s) = okOf (helper_parse_size s) := by
  intro s h
  unfold parse_size helper_parse_size
  dsimp only
  rcases h with h | ⟨u, rest, hr, hu⟩
  · rw [dropWhileB_of_head_ne _ h]
    cases parseDec ((unitSplitRev ((trimUpChars s).reverse)).1.reverse) <;> rfl
  · rw [hr]
    have hd : (('B') :: u :: rest).dropWhile (fun c => c == ('B')) = u :: rest := by
      rcases hu with h | h | h | h <;> subst h <;> rfl
    rw [hd]
    have hsplit : unitSplitRev (('B') :: u :: rest) = unitSplitRev (u :: rest) := by
      rcases hu with h | h | h | h <;> subst h <;> rfl
    rw [hsplit]
    cases parseDec ((unitSplitRev (u :: rest)).1.reverse) <;> rfl

/-- Witness for C10: the parsers agree on `100KB`. -/
theorem c10_parser_equivalence_witness :
    okOf (parse_size ("100KB")) = okOf (helper_parse_size ("100KB")) :=
  c10_parser_equivalence ("100KB")
    (Or.inr ⟨('K'), (['0', '0', '1']), by decide, Or.inl rfl⟩)

/-- Counterexample for C10 as stated: on `100B` the in-process parser
returns 100 bytes while the helper parser fails. -/
theorem c10_counterexample :
    okOf (parse_size ("100B")) = some 100 ∧ okOf (helper_parse_size ("100B")) = none := by
  decide

/-- The split never produces an empty list of pieces. -/
theorem splitAux_ne_nil (p : Char → Bool) (l acc : List Char) : splitAux p l acc ≠ [] := by
  induction l generalizing acc with
  | nil => simp [splitAux]
  | cons c t ih =>
    by_cases hc : p c
    · simp [splitAux, hc]
    · simpa [splitAux, hc] using ih (c :: acc)

/-- The first piece of the split is the accumulator followed by the longest
separator-free prefix. -/
theorem splitAux_headD (p : Char → Bool) (l acc : List Char) :
    (splitAux p l acc).headD [] = acc.reverse ++ l.takeWhile (fun c => !(p c)) := by
  induction l generalizing acc with
  | nil => simp [splitAux]
  | cons c t ih =>
    by_cases hc : p c
    · simp [splitAux, hc, List.takeWhile]
    · rw [show splitAux p (c :: t) acc = splitAux p t (c :: acc) by simp [splitAux, hc]]
      rw [ih (c :: acc)]
      simp [List.takeWhile, hc]

/-- A trimmed list is an infix of the original. -/
theorem trimChars_part (l : List Char) : trimChars l <:+: l := by
  unfold trimChars
  have h1 : l.dropWhile rustIsWhitespace <:+ l := List.dropWhile_suffix _
  have h2 : (l.dropWhile rustIsWhitespace).reverse.dropWhile rustIsWhitespace <:+
      (l.dropWhile rustIsWhitespace).reverse := List.dropWhile_suffix _
  have h3 := List.reverse_prefix.mpr h2
  rw [List.reverse_reverse] at h3
  exact h3.isInfix.trans h1.isInfix

/-- The device field of a line is a substring of that line. -/
theorem deviceField_part (line : String) : deviceFieldOf line <:+: line.toList := by
  unfold deviceFieldOf splitLine splitP
  rw [splitAux_headD]
  simp only [List.reverse_nil, List.nil_append]
  exact (trimChars_part _).trans (List.takeWhile_prefix _).isInfix

/-- A line whose device field equals the target name contains that name as
a substring. -/
theorem contains_of_field (line d : String) (h : deviceFieldOf line = d.toList) :
    containsSub line d = true := by
  rw [containsSub_iff, ← h]
  exact deviceField_part line

/-- Lines whose device field differs from both target names pass through
the rewrite unchanged, and the `found` flag of the remainder is
preserved or set. -/
theorem rewriteLines_pass (d1 dp : String) (b : Nat) (post : List String)
    (hf : ∀ l ∈ post, deviceFieldOf l ≠ d1.toList ∧ deviceFieldOf l ≠ dp.toList) :
    ∃ f, rewriteLines d1 dp b post = Except.ok (post, f) := by
  induction post with
  | nil => exact ⟨false, rfl⟩
  | cons l t ih =>
    obtain ⟨f, hfih⟩ := ih (fun x hx => hf x (List.mem_cons_of_mem l hx))
    have hfl := hf l (List.mem_cons_self l t)
    by_cases hc : (containsSub l d1 || containsSub l dp) = true
    · cases hsp : splitLine l with
      | nil => exact absurd hsp (splitAux_ne_nil _ _ _)
      | cons p0 ptail =>
        have hdev : trimChars p0 = deviceFieldOf l := by
          simp [deviceFieldOf, hsp]
        refine ⟨true, ?_⟩
        rw [rewriteLines, if_pos hc, hsp]
        dsimp only
        rw [hdev, if_neg (fun h => h.elim hfl.1 hfl.2), hfih]
    · refine ⟨f, ?_⟩
      rw [rewriteLines, if_neg hc, hfih]

/-- The line whose device field equals a target name is rewritten to the
rebuilt line: same device field, same `start` token, `size=` set to the new
sector count, other attributes preserved in order; the following lines pass
through and the `found` flag is set. -/
theorem rewriteLines_match (d1 dp : String) (b : Nat) (line : String) (post : List String)
    (hfm : deviceFieldOf line = d1.toList ∨ deviceFieldOf line = dp.toList)
    (hst : startTokOf line ≠ [])
    (hp : ∀ l ∈ post, deviceFieldOf l ≠ d1.toList ∧ deviceFieldOf l ≠ dp.toList) :
    rewriteLines d1 dp b (line :: post) =
      Except.ok (buildLine (deviceFieldOf line) (startTokOf line) ((b + 511) / 512)
        (otherAttrsOf line) :: post, true) := by
  obtain ⟨f, hfp⟩ := rewriteLines_pass d1 dp b post hp
  have hc : (containsSub line d1 || containsSub line dp) = true := by
    rcases hfm with h | h
    · rw [contains_of_field line d1 h]
      rfl
    · rw [contains_of_field line dp h, Bool.or_true]
  cases hsp : splitLine line with
  | nil => exact absurd hsp (splitAux_ne_nil _ _ _)
  | cons p0 ptail =>
    have hdev : trimChars p0 = deviceFieldOf line := by
      simp [deviceFieldOf, hsp]
    have hca1 : (collectAttrs ptail).1 = startTokOf line := by
      simp [startTokOf, hsp]
    have hca2 : (collectAttrs ptail).2 = otherAttrsOf line := by
      simp [otherAttrsOf, hsp]
    rw [rewriteLines, if_pos hc, hsp]
    dsimp only
    rw [hdev, hca1, hca2, if_pos hfm, if_neg hst, hfp]

/-- Prepending non-matching lines preserves a successful, found rewrite of
the remainder. -/
theorem rewriteLines_pre (d1 dp : String) (b : Nat) (pre rest : List String)
    (ls : List String)
    (hf : ∀ l ∈ pre, deviceFieldOf l ≠ d1.toList ∧ deviceFieldOf l ≠ dp.toList)
    (hrest : rewriteLines d1 dp b rest = Except.ok (ls, true)) :
    rewriteLines d1 dp b (pre ++ rest) = Except.ok (pre ++ ls, true) := by
  induction pre with
  | nil => simpa using hrest
  | cons l t ih =>
    have hih := ih (fun x hx => hf x (List.mem_cons_of_mem l hx))
    have hfl := hf l (List.mem_cons_self l t)
    by_cases hc : (containsSub l d1 || containsSub l dp) = true
    · cases hsp : splitLine l with
      | nil => exact absurd hsp (splitAux_ne_nil _ _ _)
      | cons p0 ptail =>
        have hdev : trimChars p0 = deviceFieldOf l := by
          simp [deviceFieldOf, hsp]
        rw [List.cons_append, rewriteLines, if_pos hc, hsp]
        dsimp only
        rw [hdev, if_neg (fun h => h.elim hfl.1 hfl.2), hih]
        rfl
    · rw [List.cons_append, rewriteLines, if_neg hc, hih]
      rfl

/-- **C3 (amended).**  The table rewrite changes exactly the line whose
device field equals `/dev/<disk><num>` or `/dev/<disk>p<num>`: that line
becomes its device field, its `start` token (byte-for-byte), a `size=`
field holding `ceil(new_bytes/512)` sectors, and its other attribute tokens
in their original order; every other line passes through unchanged and
line order is preserved.  The no-match failure is amended: the operation
fails (without writing a table) only when *no line contains the device
name as a substring*; a line that merely contains it, with a different
device field, suffices for the table to be written unchanged (see the
counterexample). -/
theorem c3_resize_rewrite :
    (∀ (disk : String) (num b : Nat) (pre : List String) (line : String) (post : List String),
      (∀ l ∈ pre ++ post,
        deviceFieldOf l ≠ ("/dev/" ++ disk ++ toString num).toList ∧
        deviceFieldOf l ≠ ("/dev/" ++ disk ++ "p" ++ toString num).toList) →
      (deviceFieldOf line = ("/dev/" ++ disk ++ toString num).toList ∨
        deviceFieldOf line = ("/dev/" ++ disk ++ "p" ++ toString num).toList) →
      startTokOf line ≠ [] →
      rewriteTable disk num b (pre ++ line :: post) =
        Except.ok (pre ++
          buildLine (deviceFieldOf line) (startTokOf line) ((b + 511) / 512)
            (otherAttrsOf line) :: post)) ∧
    (∀ b : Nat, (b + 511) / 512 = b / 512 + (if b % 512 = 0 then 0 else 1)) ∧
    (∀ (disk : String) (num b : Nat) (lines : List String),
      (∀ l ∈ lines,
        containsSub l ("/dev/" ++ disk ++ toString num) = false ∧
        containsSub l ("/dev/" ++ disk ++ "p" ++ toString num) = false) →
      rewriteTable disk num b lines = Except.error (RErr.notFound)) := by
  refine ⟨?_, ?_, ?_⟩
  · intro disk num b pre line post hpre hfm hst
    have hpost : ∀ l ∈ post,
        deviceFieldOf l ≠ ("/dev/" ++ disk ++ toString num).toList ∧
        deviceFieldOf l ≠ ("/dev/" ++ disk ++ "p" ++ toString num).toList :=
      fun l hl => hpre l (List.mem_append_right pre hl)
    have hpre' : ∀ l ∈ pre,
        deviceFieldOf l ≠ ("/dev/" ++ disk ++ toString num).toList ∧
        deviceFieldOf l ≠ ("/dev/" ++ disk ++ "p" ++ toString num).toList :=
      fun l hl => hpre l (List.mem_append_left post hl)
    have h1 := rewriteLines_match ("/dev/" ++ disk ++ toString num)
      ("/dev/" ++ disk ++ "p" ++ toString num) b line post hfm hst hpost
    have h2 := rewriteLines_pre ("/dev/" ++ disk ++ toString num)
      ("/dev/" ++ disk ++ "p" ++ toString num) b pre (line :: post) _ hpre' h1
    unfold rewriteTable
    dsimp only
    rw [h2]
    rfl
  · intro b
    split_ifs with h <;> omega
  · intro disk num b lines h
    have hnone : rewriteLines ("/dev/" ++ disk ++ toString num)
        ("/dev/" ++ disk ++ "p" ++ toString num) b lines = Except.ok (lines, false) := by
      induction lines with
      | nil => rfl
      | cons l t ih =>
        have hcl := h l (List.mem_cons_self l t)
        have hih := ih (fun x hx => h x (List.mem_cons_of_mem l hx))
        rw [rewriteLines, if_neg (by rw [hcl.1, hcl.2]; exact (fun hx => nomatch hx)), hih]
    unfold rewriteTable
    dsimp only
    rw [hnone]
    rfl

/-- Witness for C3: in a three-line gpt dump the `sdb`-style line for
`sda1` is rewritten to carry `size=1954` (ceil(10^6/512)) with its start
and type preserved, and the neighbouring lines pass through. -/
theorem c3_resize_rewrite_witness :
    rewriteTable ("sda") 1 1000000
        (["label: gpt"] ++ ("/dev/sda1 : start= 2048, size= 204800, type=83") ::
          ["/dev/sda2 : start= 300000, size= 100, type=82"]) =
      Except.ok (["label: gpt"] ++
        buildLine (deviceFieldOf ("/dev/sda1 : start= 2048, size= 204800, type=83"))
          (startTokOf ("/dev/sda1 : start= 2048, size= 204800, type=83"))
          ((1000000 + 511) / 512)
          (otherAttrsOf ("/dev/sda1 : start= 2048, size= 204800, type=83")) ::
        ["/dev/sda2 : start= 300000, size= 100, type=82"]) ∧
    buildLine (deviceFieldOf ("/dev/sda1 : start= 2048, size= 204800, type=83"))
        (startTokOf ("/dev/sda1 : start= 2048, size= 204800, type=83"))
        ((1000000 + 511) / 512)
        (otherAttrsOf ("/dev/sda1 : start= 2048, size= 204800, type=83")) =
      "/dev/sda1 : start= 2048, size=1954, type=83" :=
  ⟨c3_resize_rewrite.1 ("sda") 1 1000000 (["label: gpt"])
      ("/dev/sda1 : start= 2048, size= 204800, type=83")
      (["/dev/sda2 : start= 300000, size= 100, type=82"])
      (by decide) (by decide) (by decide),
    by decide⟩

/-- Counterexample for C3 as stated: no line's device field matches the
target `sda` partition 1, yet the rewrite succeeds (so the table is
written) with every line unchanged, because `/dev/sda11` *contains*
`/dev/sda1` as a substring. -/
theorem c3_counterexample :
    rewriteTable ("sda") 1 1000000 (["/dev/sda11 : start= 99, size= 5"]) =
      Except.ok (["/dev/sda11 : start= 99, size= 5"]) ∧
    deviceFieldOf ("/dev/sda11 : start= 99, size= 5") ≠ ("/dev/sda1").toList ∧
    deviceFieldOf ("/dev/sda11 : start= 99, size= 5") ≠ ("/dev/sdap1").toList := by
  decide

/-- A trace with no `p`-action falsifies `p` at each member. -/
theorem noneSat_mem (p : Act → Bool) (tr : List Act) (h : noneSat p tr = true)
    (a : Act) (ha : a ∈ tr) : p a = false := by
  have h2 := List.all_eq_true.mp h a ha
  simpa using h2

/-- `noneSat` over an append. -/
theorem noneSat_append (p : Act → Bool) (x y : List Act) :
    noneSat p (x ++ y) = (noneSat p x && noneSat p y) := by
  simp [noneSat, List.all_append]

/-- `noneSat` over a cons. -/
theorem noneSat_cons (p : Act → Bool) (a : Act) (tr : List Act) :
    noneSat p (a :: tr) = (!(p a) && noneSat p tr) := by
  simp [noneSat]

/-- `noneSat` on the empty trace. -/
theorem noneSat_nil (p : Act → Bool) : noneSat p ([] : List Act) = true := rfl

/-- If the first segment has no `q`-action and the second no `p`-action,
every `p`-action of the concatenation precedes every `q`-action. -/
theorem allBefore_split (p q : Act → Bool) (x y : List Act)
    (hq : noneSat q x = true) (hp : noneSat p y = true) :
    allBefore p q (x ++ y) := by
  intro i j hi hj hpi hqj
  rw [List.get_eq_getElem] at hpi hqj
  have hx : i < x.length := by
    by_contra hcon
    push_neg at hcon
    rw [List.getElem_append_right hcon] at hpi
    have hlt : i - x.length < y.length := by
      have hl := hi
      simp only [List.length_append] at hl
      omega
    have hf := noneSat_mem p y hp (y.get ⟨i - x.length, hlt⟩)
      (List.get_mem y (i - x.length) hlt)
    rw [List.get_eq_getElem] at hf
    rw [hf] at hpi
    exact Bool.false_ne_true hpi
  have hy : x.length ≤ j := by
    by_contra hcon
    push_neg at hcon
    rw [List.getElem_append_left hcon] at hqj
    have hf := noneSat_mem q x hq (x.get ⟨j, hcon⟩) (List.get_mem x j hcon)
    rw [List.get_eq_getElem] at hf
    rw [hf] at hqj
    exact Bool.false_ne_true hqj
  omega

/-- A trace without `p`-actions trivially orders `p` before `q`. -/
theorem allBefore_of_no_p (p q : Act → Bool) (tr : List Act)
    (h : noneSat p tr = true) : allBefore p q tr := by
  have h2 := allBefore_split p q [] tr rfl h
  exact h2

/-- A trace without `q`-actions trivially orders `p` before `q`. -/
theorem allBefore_of_no_q (p q : Act → Bool) (tr : List Act)
    (h : noneSat q tr = true) : allBefore p q tr := by
  have h2 := allBefore_split p q tr [] h rfl
  rw [List.append_nil] at h2
  exact h2

/-- The encryption probe runs only `cryptsetup`. -/
theorem is_luks_device_trace (env : Env) (d : String) :
    (is_luks_device env d).1 = [Act.tool ("cryptsetup") (["isLuks", "/dev/" ++ d]) none] := rfl

/-- The mount probe runs only `findmnt`. -/
theorem is_mounted_trace (env : Env) (p : String) :
    (is_mounted env p).1 = [Act.tool ("findmnt") (["-n", get_device_path env p]) none] := rfl

/-- The inventory reader runs only `lsblk`. -/
theorem list_block_devices_trace (env : Env) :
    (list_block_devices env).1 =
      [Act.tool ("lsblk") (["-J", "-b", "-o", "NAME,SIZE,TYPE,MODEL,SERIAL,MOUNTPOINT,FSTYPE,LABEL"]) none] := rfl

/-- The filesystem-resize phase never writes the partition table. -/
theorem resize_filesystem_no_table (env : Env) (pt : String) (fs : Option String)
    (n : Nat) (g : Bool) :
    noneSat isTableWriteAct (resize_filesystem env pt fs n g).1 = true := by
  unfold resize_filesystem
  match fs with
  | none => rfl
  | some f =>
    dsimp only
    cases g <;>
      simp only [runTool, notif, apply_ite (@Prod.fst (List Act) (Except String Unit)),
        apply_ite (noneSat isTableWriteAct), noneSat_append, noneSat_cons, noneSat_nil,
        ite_self, isTableWriteAct] <;>
      simp [noneSat, isTableWriteAct]

/-- The table-rewrite phase never invokes a filesystem-resize tool. -/
theorem resize_table_phase_no_fs (env : Env) (pt disk : String) (pn n : Nat) :
    noneSat isFsResizeAct (resize_table_phase env pt disk pn n).1 = true := by
  unfold resize_table_phase
  dsimp only
  simp only [runTool, notif]
  (try split_ifs) <;> (try split) <;>
    simp [apply_ite (@Prod.fst (List Act) (Except String Unit)),
      apply_ite (noneSat isFsResizeAct), noneSat_append, noneSat_cons, noneSat_nil,
      ite_self, isFsResizeAct]

set_option maxHeartbeats 800000 in
/-- **C4 (confirmed).**  For every resize run on a non-encrypted (`cryptsetup
isLuks` fails), unmounted (`findmnt` reports not mounted) partition whose
name splits into a disk and index, whose new size parses, and whose disk and
partition are found in the inventory: when the requested size is not greater
than the current size, every filesystem-resize tool invocation
(`resize2fs`/`xfs_growfs`/`ntfsresize`/`btrfs`) occurs strictly before every
partition-table write (`sfdisk --force --no-reread`); when it is greater,
strictly after. -/
theorem c4_resize_ordering (env : Env) (partition new_size_input disk : String)
    (pn nb : Nat) (dev : BlockDevice) (cur : Partition)
    (hl : (is_luks_device env partition).2 = false)
    (hm : (is_mounted env partition).2 = Except.ok false)
    (hsplit : splitNameResize partition = Except.ok (disk, pn))
    (hps : parse_size new_size_input = Except.ok nb)
    (hfind : (list_block_devices env).2.find? (fun d => d.name = disk) = some dev)
    (hpart : dev.partitions.find? (fun p => p.name = partition) = some cur) :
    (nb ≤ cur.size →
      allBefore isFsResizeAct isTableWriteAct
        (resize_partition_and_filesystem env partition new_size_input).1) ∧
    (cur.size < nb →
      allBefore isTableWriteAct isFsResizeAct
        (resize_partition_and_filesystem env partition new_size_input).1) := by
  cases hv : validate_device_name partition with
  | error e =>
    constructor <;> intro _ <;>
      (have htr : (resize_partition_and_filesystem env partition new_size_input).1 =
          ([] : List Act) := by
         simp [resize_partition_and_filesystem, hv]
       rw [htr]
       exact allBefore_of_no_p _ _ _ rfl)
  | ok u =>
    refine ⟨fun hle => ?_, fun hgt => ?_⟩
    · have hng : decide (cur.size < nb) = false := decide_eq_false (not_lt.mpr hle)
      cases hrf : (resize_filesystem env partition cur.filesystem nb false).2 with
      | error e =>
        have htr : (resize_partition_and_filesystem env partition new_size_input).1 =
            (is_luks_device env partition).1 ++ (is_mounted env partition).1 ++
              [Act.ev (UiEv.progStart ("Resizing " ++ partition ++ "..."))] ++
              (list_block_devices env).1 ++
              (notif (Lvl.info) ("Shrinking filesystem...") ::
                (resize_filesystem env partition cur.filesystem nb false).1) := by
          simp [resize_partition_and_filesystem, hv, hl, hm, hsplit, hps, hfind, hpart, hng, hrf]
        rw [htr]
        apply allBefore_of_no_q
        simp [noneSat_append, noneSat_cons, noneSat_nil, isTableWriteAct,
          is_luks_device_trace, is_mounted_trace, list_block_devices_trace, notif,
          resize_filesystem_no_table env partition cur.filesystem nb false]
      | ok v =>
        cases htp : (resize_table_phase env partition disk pn nb).2 with
        | error e2 =>
          have htr : (resize_partition_and_filesystem env partition new_size_input).1 =
              ((is_luks_device env partition).1 ++ (is_mounted env partition).1 ++
                [Act.ev (UiEv.progStart ("Resizing " ++ partition ++ "..."))] ++
                (list_block_devices env).1 ++
                (notif (Lvl.info) ("Shrinking filesystem...") ::
                  (resize_filesystem env partition cur.filesystem nb false).1) ++
                [notif (Lvl.info) ("Resizing partition...")]) ++
              (resize_table_phase env partition disk pn nb).1 := by
            simp [resize_partition_and_filesystem, hv, hl, hm, hsplit, hps, hfind, hpart, hng,
              hrf, htp]
          rw [htr]
          refine allBefore_split _ _ _ _ ?_ ?_
          · simp [noneSat_append, noneSat_cons, noneSat_nil, isTableWriteAct,
              is_luks_device_trace, is_mounted_trace, list_block_devices_trace, notif,
              resize_filesystem_no_table env partition cur.filesystem nb false]
          · exact resize_table_phase_no_fs env partition disk pn nb
        | ok v2 =>
          have htr : (resize_partition_and_filesystem env partition new_size_input).1 =
              ((is_luks_device env partition).1 ++ (is_mounted env partition).1 ++
                [Act.ev (UiEv.progStart ("Resizing " ++ partition ++ "..."))] ++
                (list_block_devices env).1 ++
                (notif (Lvl.info) ("Shrinking filesystem...") ::
                  (resize_filesystem env partition cur.filesystem nb false).1) ++
                [notif (Lvl.info) ("Resizing partition...")]) ++
              ((resize_table_phase env partition disk pn nb).1 ++
                [Act.ev (UiEv.progEnd),
                 notif (Lvl.info) ("Successfully resized " ++ partition ++ " to " ++
                   format_bytes nb)]) := by
            simp [resize_partition_and_filesystem, hv, hl, hm, hsplit, hps, hfind, hpart, hng,
              hrf, htp]
          rw [htr]
          refine allBefore_split _ _ _ _ ?_ ?_
          · simp [noneSat_append, noneSat_cons, noneSat_nil, isTableWriteAct,
              is_luks_device_trace, is_mounted_trace, list_block_devices_trace, notif,
              resize_filesystem_no_table env partition cur.filesystem nb false]
          · simp [noneSat_append, noneSat_cons, noneSat_nil, isFsResizeAct, notif,
              resize_table_phase_no_fs env partition disk pn nb]
    · have hgg : decide (cur.size < nb) = true := decide_eq_true hgt
      cases htp : (resize_table_phase env partition disk pn nb).2 with
      | error e2 =>
        have htr : (resize_partition_and_filesystem env partition new_size_input).1 =
            (is_luks_device env partition).1 ++ (is_mounted env partition).1 ++
              [Act.ev (UiEv.progStart ("Resizing " ++ partition ++ "..."))] ++
              (list_block_devices env).1 ++
              [notif (Lvl.info) ("Resizing partition...")] ++
              (resize_table_phase env partition disk pn nb).1 := by
          simp [resize_partition_and_filesystem, hv, hl, hm, hsplit, hps, hfind, hpart, hgg, htp]
        rw [htr]
        apply allBefore_of_no_q
        simp [noneSat_append, noneSat_cons, noneSat_nil, notif,
          is_luks_device_trace, is_mounted_trace, list_block_devices_trace, isFsResizeAct,
          resize_table_phase_no_fs env partition disk pn nb]
      | ok v2 =>
        cases hrf : (resize_filesystem env partition cur.filesystem nb true).2 with
        | error e =>
          have htr : (resize_partition_and_filesystem env partition new_size_input).1 =
              ((is_luks_device env partition).1 ++ (is_mounted env partition).1 ++
                [Act.ev (UiEv.progStart ("Resizing " ++ partition ++ "..."))] ++
                (list_block_devices env).1 ++
                [notif (Lvl.info) ("Resizing partition...")] ++
                (resize_table_phase env partition disk pn nb).1) ++
              (notif (Lvl.info) ("Expanding filesystem...") ::
                (resize_filesystem env partition cur.filesystem nb true).1) := by
            simp [resize_partition_and_filesystem, hv, hl, hm, hsplit, hps, hfind, hpart, hgg,
              hrf, htp]
          rw [htr]
          refine allBefore_split _ _ _ _ ?_ ?_
          · simp [noneSat_append, noneSat_cons, noneSat_nil, notif,
              is_luks_device_trace, is_mounted_trace, list_block_devices_trace, isFsResizeAct,
              resize_table_phase_no_fs env partition disk pn nb]
          · simp [noneSat_append, noneSat_cons, noneSat_nil, notif, isTableWriteAct,
              resize_filesystem_no_table env partition cur.filesystem nb true]
        | ok v =>
          have htr : (resize_partition_and_filesystem env partition new_size_input).1 =
              ((is_luks_device env partition).1 ++ (is_mounted env partition).1 ++
                [Act.ev (UiEv.progStart ("Resizing " ++ partition ++ "..."))] ++
                (list_block_devices env).1 ++
                [notif (Lvl.info) ("Resizing partition...")] ++
                (resize_table_phase env partition disk pn nb).1) ++
              (notif (Lvl.info) ("Expanding filesystem...") ::
                ((resize_filesystem env partition cur.filesystem nb true).1 ++
                  [Act.ev (UiEv.progEnd),
                   notif (Lvl.info) ("Successfully resized " ++ partition ++ " to " ++
                     format_bytes nb)])) := by
            simp [resize_partition_and_filesystem, hv, hl, hm, hsplit, hps, hfind, hpart, hgg,
              hrf, htp]
          rw [htr]
          refine allBefore_split _ _ _ _ ?_ ?_
          · simp [noneSat_append, noneSat_cons, noneSat_nil, notif,
              is_luks_device_trace, is_mounted_trace, list_block_devices_trace, isFsResizeAct,
              resize_table_phase_no_fs env partition disk pn nb]
          · simp [noneSat_append, noneSat_cons, noneSat_nil, notif, isTableWriteAct,
              resize_filesystem_no_table env partition cur.filesystem nb true]


/-- Witness for C4: on `envResize` (`sdb1`, 3 GB ext4), shrinking to `2G`
orders the `resize2fs` call before the `sfdisk` table write, and growing to
`3.5G` orders it after; both act kinds occur in both traces. -/
theorem c4_resize_ordering_witness :
    (allBefore isFsResizeAct isTableWriteAct
        (resize_partition_and_filesystem envResize ("sdb1") ("2G")).1 ∧
      (resize_partition_and_filesystem envResize ("sdb1") ("2G")).1.any isFsResizeAct = true ∧
      (resize_partition_and_filesystem envResize ("sdb1") ("2G")).1.any isTableWriteAct = true) ∧
    (allBefore isTableWriteAct isFsResizeAct
        (resize_partition_and_filesystem envResize ("sdb1") ("3.5G")).1 ∧
      (resize_partition_and_filesystem envResize ("sdb1") ("3.5G")).1.any isFsResizeAct = true ∧
      (resize_partition_and_filesystem envResize ("sdb1") ("3.5G")).1.any isTableWriteAct = true) :=
  ⟨⟨(c4_resize_ordering envResize ("sdb1") ("2G") ("sdb") 1 2000000000
        ⟨"sdb", 4000000000, none, none, [⟨"sdb1", 3000000000, some ("ext4"), none, false⟩]⟩
        ⟨"sdb1", 3000000000, some ("ext4"), none, false⟩
        (by decide) (by decide) (by decide) (by decide) rfl rfl).1 (by decide),
    by decide, by decide⟩,
   ⟨(c4_resize_ordering envResize ("sdb1") ("3.5G") ("sdb") 1 3500000000
        ⟨"sdb", 4000000000, none, none, [⟨"sdb1", 3000000000, some ("ext4"), none, false⟩]⟩
        ⟨"sdb1", 3000000000, some ("ext4"), none, false⟩
        (by decide) (by decide) (by decide) (by decide) rfl rfl).2 (by decide),
    by decide, by decide⟩⟩

/-- A trace with no `p`-action has `any p` false. -/
theorem any_eq_false_of_noneSat (p : Act → Bool) (tr : List Act)
    (h : noneSat p tr = true) : tr.any p = false := by
  rw [List.any_eq_false]
  intro a ha
  have hf := noneSat_mem p tr h a ha
  simp [hf]

/-- A trace without maker acts vacuously targets any path. -/
theorem makerOnlyOn_of_noneSat (tr : List Act) (p : String)
    (h : noneSat isMakerAct tr = true) : makerOnlyOn tr p = true := by
  rw [makerOnlyOn, List.all_eq_true]
  intro a ha
  have hm := noneSat_mem isMakerAct tr h a ha
  cases a with
  | tool c args st =>
    simp only [isMakerAct] at hm
    have hni : c ∉ mkfsCmds := by simpa using hm
    simp [hni]
  | ev e => simp

/-- The mapper-registry walk runs only `cryptsetup`, never a maker tool. -/
theorem luksScan_no_maker (env : Env) (d : String) (ms : List String) :
    noneSat isMakerAct (luksScan env d ms).1 = true := by
  induction ms with
  | nil => rfl
  | cons m rest ih =>
    unfold luksScan
    dsimp only [runTool]
    split_ifs <;> (try split) <;>
      simp [noneSat_append, noneSat_cons, noneSat_nil, isMakerAct, mkfsCmds, ih]

/-- The LUKS status probe never invokes a maker tool. -/
theorem get_luks_status_no_maker (env : Env) (d : String) :
    noneSat isMakerAct (get_luks_status env d).1 = true := by
  unfold get_luks_status
  split_ifs
  · exact luksScan_no_maker env d env.mapperEntries
  · rfl

/-- When the mapper node exists, a name resolves to its mapper path. -/
theorem get_device_path_mapper (env : Env) (d : String)
    (hp : env.pathExists ("/dev/mapper/" ++ d) = true) :
    get_device_path env d = "/dev/mapper/" ++ d := by
  unfold get_device_path
  simp [hp]

/-- Every maker-tool argument list ends with the device path. -/
theorem mkfsCmdArgs_last (fs : FilesystemType) (p : String) :
    (mkfsCmdArgs fs p).2.getLast? = some p := by
  cases fs <;> rfl

/-- Every maker invocation of the format tail targets the resolved device
path of the chosen target. -/
theorem format_partition_on_maker (env : Env) (d : String) (fs : FilesystemType) :
    makerOnlyOn (format_partition_on env d fs).1 (get_device_path env d) = true := by
  unfold format_partition_on
  dsimp only [runTool, notif]
  (try split) <;> (try split_ifs) <;>
    cases fs <;>
    simp [apply_ite (@Prod.fst (List Act) (Except String Unit)),
      apply_ite (fun l => makerOnlyOn l (get_device_path env d)),
      makerOnlyOn, mkfsCmdArgs, mkfsCmds, ite_self, is_mounted_trace]

/-- A mounted target aborts the format tail with no maker invocation. -/
theorem format_partition_on_mounted (env : Env) (d : String) (fs : FilesystemType)
    (hm : (is_mounted env d).2 = Except.ok true) :
    (format_partition_on env d fs).2 = Except.error ("Partition is mounted") ∧
      (format_partition_on env d fs).1.any isMakerAct = false := by
  unfold format_partition_on
  dsimp only
  rw [hm]
  constructor
  · rfl
  · simp [is_mounted_trace, isMakerAct, mkfsCmds, notif]

/-- An accepted device name contains no slash. -/
theorem validate_no_slash (name : String)
    (h : validate_device_name name = Except.ok ()) :
    name.toList.contains ('/') = false := by
  unfold validate_device_name at h
  split_ifs at h with h1 h2 h3 h4 <;> try cases h
  simp only [Bool.or_eq_true, not_or] at h2
  have := h2.2
  simpa using this

/-- A mapper path never coincides with the raw path of a slash-free
partition name. -/
theorem mapper_ne_raw (partition m : String)
    (hns : partition.toList.contains ('/') = false) :
    ("/dev/mapper/" ++ m) ≠ ("/dev/" ++ partition) := by
  intro h
  have hd : ("/dev/mapper/" ++ m).toList = ("/dev/" ++ partition).toList := by rw [h]
  rw [show ("/dev/mapper/" ++ m).toList =
        ('/' :: 'd' :: 'e' :: 'v' :: '/' :: 'm' :: 'a' :: 'p' :: 'p' :: 'e' :: 'r' :: '/' :: m.toList)
      from rfl,
    show ("/dev/" ++ partition).toList =
        ('/' :: 'd' :: 'e' :: 'v' :: '/' :: partition.toList) from rfl] at hd
  simp only [List.cons.injEq, true_and] at hd
  have hmem : ('/') ∈ partition.toList := by
    rw [← hd]
    simp
  have h2 : partition.toList.contains ('/') = true := List.elem_iff.mpr hmem
  exact Bool.false_ne_true (hns.symm.trans h2)

/-- `makerOnlyOn` over an append. -/
theorem makerOnlyOn_append (x y : List Act) (p : String) :
    makerOnlyOn (x ++ y) p = (makerOnlyOn x p && makerOnlyOn y p) := by
  simp [makerOnlyOn, List.all_append]

/-- `makerOnlyOn` on the empty trace. -/
theorem makerOnlyOn_nil (p : String) : makerOnlyOn ([] : List Act) p = true := rfl

/-- `makerOnlyOn` over a tool act. -/
theorem makerOnlyOn_cons_tool (c : String) (args : List String) (st : Option String)
    (tr : List Act) (p : String) :
    makerOnlyOn (Act.tool c args st :: tr) p =
      ((!(mkfsCmds.contains c) || args.getLast? == some p) && makerOnlyOn tr p) := by
  simp [makerOnlyOn]

/-- `makerOnlyOn` ignores events. -/
theorem makerOnlyOn_cons_ev (e : UiEv) (tr : List Act) (p : String) :
    makerOnlyOn (Act.ev e :: tr) p = makerOnlyOn tr p := by
  simp [makerOnlyOn]

/-- A trace whose makers all target `p` has no maker targeting `q ≠ p`. -/
theorem makerOn_ne (tr : List Act) (p q : String)
    (h : makerOnlyOn tr p = true) (hne : p ≠ q) : makerOn tr q = false := by
  by_contra hc
  rw [Bool.not_eq_false] at hc
  rw [makerOn, List.any_eq_true] at hc
  obtain ⟨a, ha, hpa⟩ := hc
  have hall := List.all_eq_true.mp h a ha
  cases a with
  | tool c args st =>
    dsimp only at hall
    simp only [Bool.and_eq_true, beq_iff_eq] at hpa
    rw [hpa.1] at hall
    simp only [Bool.not_true, Bool.false_or, beq_iff_eq] at hall
    rw [hall] at hpa
    exact hne (Option.some.inj hpa.2)
  | ev e => cases hpa

/-- **C7 (confirmed).**  `format_partition` on an encrypted target that is
unlocked with mapper name `m` (whose mapper node exists) invokes maker tools
only on `/dev/mapper/<m>` and never on the raw partition path; on a locked
encrypted target it fails with the unlock-first instruction, emitting that
notification and invoking no maker; on a mounted plain target, or a mounted
redirected mapper target, it fails with no maker invocation. -/
theorem c7_format_redirect :
    (∀ (env : Env) (partition : String) (fs : FilesystemType) (m : String) (dp : Option String),
      validate_device_name partition = Except.ok () →
      (is_luks_device env partition).2 = true →
      (get_luks_status env partition).2 = ⟨true, some m, dp⟩ →
      env.pathExists ("/dev/mapper/" ++ m) = true →
      makerOnlyOn (format_partition env partition fs).1 ("/dev/mapper/" ++ m) = true ∧
      makerOn (format_partition env partition fs).1 ("/dev/" ++ partition) = false) ∧
    (∀ (env : Env) (partition : String) (fs : FilesystemType),
      validate_device_name partition = Except.ok () →
      (is_luks_device env partition).2 = true →
      (get_luks_status env partition).2.is_active = false →
      (format_partition env partition fs).2 =
        Except.error ("Cannot format locked LUKS device - unlock it first") ∧
      notif (Lvl.error) (partition ++ " is encrypted and locked. Unlock it first (press 'l') to format the encrypted filesystem.") ∈ (format_partition env partition fs).1 ∧
      (format_partition env partition fs).1.any isMakerAct = false) ∧
    (∀ (env : Env) (partition : String) (fs : FilesystemType),
      validate_device_name partition = Except.ok () →
      (is_luks_device env partition).2 = false →
      (is_mounted env partition).2 = Except.ok true →
      (format_partition env partition fs).2 = Except.error ("Partition is mounted") ∧
      (format_partition env partition fs).1.any isMakerAct = false) ∧
    (∀ (env : Env) (partition : String) (fs : FilesystemType) (m : String) (dp : Option String),
      validate_device_name partition = Except.ok () →
      (is_luks_device env partition).2 = true →
      (get_luks_status env partition).2 = ⟨true, some m, dp⟩ →
      (is_mounted env m).2 = Except.ok true →
      (format_partition env partition fs).2 = Except.error ("Partition is mounted") ∧
      (format_partition env partition fs).1.any isMakerAct = false) := by
  refine ⟨?_, ?_, ?_, ?_⟩
  · intro env partition fs m dp hv hl hgs hp
    have h1 : (get_luks_status env partition).2.is_active = true := by rw [hgs]
    have h2 : (get_luks_status env partition).2.mapper_name = some m := by rw [hgs]
    have htr : (format_partition env partition fs).1 =
        (is_luks_device env partition).1 ++ (get_luks_status env partition).1 ++
          [notif (Lvl.info) (partition ++ " is encrypted and unlocked. Formatting the encrypted filesystem at " ++ m ++ "...")] ++
          (format_partition_on env m fs).1 := by
      simp [format_partition, hv, hl, h1, h2]
    have hmapper : makerOnlyOn (format_partition env partition fs).1 ("/dev/mapper/" ++ m)
        = true := by
      rw [htr]
      have hfp := format_partition_on_maker env m fs
      rw [get_device_path_mapper env m hp] at hfp
      simp [makerOnlyOn_append, makerOnlyOn_cons_tool, makerOnlyOn_cons_ev, makerOnlyOn_nil,
        hfp,
        makerOnlyOn_of_noneSat _ ("/dev/mapper/" ++ m) (get_luks_status_no_maker env partition),
        is_luks_device_trace, mkfsCmds, notif]
    refine ⟨hmapper, ?_⟩
    exact makerOn_ne _ _ _ hmapper (mapper_ne_raw partition m (validate_no_slash partition hv))
  · intro env partition fs hv hl ha
    have htr : (format_partition env partition fs).1 =
        (is_luks_device env partition).1 ++ (get_luks_status env partition).1 ++
          [notif (Lvl.error) (partition ++ " is encrypted and locked. Unlock it first (press 'l') to format the encrypted filesystem.")] ∧
        (format_partition env partition fs).2 =
          Except.error ("Cannot format locked LUKS device - unlock it first") := by
      constructor <;> simp [format_partition, hv, hl, ha]
    refine ⟨htr.2, ?_, ?_⟩
    · rw [htr.1]; simp
    · rw [htr.1]
      simp [List.any_append, isMakerAct, mkfsCmds, is_luks_device_trace, notif,
        any_eq_false_of_noneSat _ _ (get_luks_status_no_maker env partition)]
  · intro env partition fs hv hl hm
    have hfm := format_partition_on_mounted env partition fs hm
    have htr : (format_partition env partition fs).1 =
        (is_luks_device env partition).1 ++ (format_partition_on env partition fs).1 ∧
        (format_partition env partition fs).2 = (format_partition_on env partition fs).2 := by
      constructor <;> simp [format_partition, hv, hl]
    refine ⟨htr.2.trans hfm.1, ?_⟩
    rw [htr.1]
    simp [List.any_append, is_luks_device_trace, isMakerAct, mkfsCmds, hfm.2]
  · intro env partition fs m dp hv hl hgs hm
    have h1 : (get_luks_status env partition).2.is_active = true := by rw [hgs]
    have h2 : (get_luks_status env partition).2.mapper_name = some m := by rw [hgs]
    have hfm := format_partition_on_mounted env m fs hm
    have htr : (format_partition env partition fs).1 =
        (is_luks_device env partition).1 ++ (get_luks_status env partition).1 ++
          [notif (Lvl.info) (partition ++ " is encrypted and unlocked. Formatting the encrypted filesystem at " ++ m ++ "...")] ++
          (format_partition_on env m fs).1 ∧
        (format_partition env partition fs).2 = (format_partition_on env m fs).2 := by
      constructor <;> simp [format_partition, hv, hl, h1, h2]
    refine ⟨htr.2.trans hfm.1, ?_⟩
    rw [htr.1]
    simp [List.any_append, is_luks_device_trace, isMakerAct, mkfsCmds, notif, hfm.2,
      any_eq_false_of_noneSat _ _ (get_luks_status_no_maker env partition)]


/-- Witness for C7: formatting the unlocked LUKS partition `sdb1` as NTFS
sends the maker to `/dev/mapper/luks-sdb1` (and a maker does run), never to
`/dev/sdb1`; the locked container fails with the unlock instruction and no
maker; the mounted plain partition and the mounted unlocked mapper both fail
with no maker. -/
theorem c7_format_redirect_witness :
    (makerOnlyOn (format_partition envLuksUnlocked ("sdb1") (FilesystemType.Ntfs)).1
        ("/dev/mapper/" ++ "luks-sdb1") = true ∧
      makerOn (format_partition envLuksUnlocked ("sdb1") (FilesystemType.Ntfs)).1
        ("/dev/" ++ "sdb1") = false ∧
      makerOn (format_partition envLuksUnlocked ("sdb1") (FilesystemType.Ntfs)).1
        ("/dev/mapper/" ++ "luks-sdb1") = true) ∧
    ((format_partition envLuksLocked ("sdb1") (FilesystemType.Ntfs)).2 =
        Except.error ("Cannot format locked LUKS device - unlock it first") ∧
      notif (Lvl.error) ("sdb1" ++ " is encrypted and locked. Unlock it first (press 'l') to format the encrypted filesystem.") ∈ (format_partition envLuksLocked ("sdb1") (FilesystemType.Ntfs)).1 ∧
      (format_partition envLuksLocked ("sdb1") (FilesystemType.Ntfs)).1.any isMakerAct
        = false) ∧
    ((format_partition envMounted ("sdb1") (FilesystemType.Ntfs)).2 =
        Except.error ("Partition is mounted") ∧
      (format_partition envMounted ("sdb1") (FilesystemType.Ntfs)).1.any isMakerAct
        = false) ∧
    ((format_partition envLuksUnlockedMounted ("sdb1") (FilesystemType.Ntfs)).2 =
        Except.error ("Partition is mounted") ∧
      (format_partition envLuksUnlockedMounted ("sdb1") (FilesystemType.Ntfs)).1.any isMakerAct
        = false) :=
  ⟨⟨(c7_format_redirect.1 envLuksUnlocked ("sdb1") (FilesystemType.Ntfs) ("luks-sdb1")
        (some ("/dev/sdb1")) (by decide) (by decide) (by decide) rfl).1,
    (c7_format_redirect.1 envLuksUnlocked ("sdb1") (FilesystemType.Ntfs) ("luks-sdb1")
        (some ("/dev/sdb1")) (by decide) (by decide) (by decide) rfl).2,
    by decide⟩,
   c7_format_redirect.2.1 envLuksLocked ("sdb1") (FilesystemType.Ntfs)
     (by decide) (by decide) (by decide),
   c7_format_redirect.2.2.1 envMounted ("sdb1") (FilesystemType.Ntfs)
     (by decide) (by decide) (by decide),
   c7_format_redirect.2.2.2 envLuksUnlockedMounted ("sdb1") (FilesystemType.Ntfs) ("luks-sdb1")
     (some ("/dev/sdb1")) (by decide) (by decide) (by decide) (by decide)⟩


/-- **C8 (amended).**  `create_partition_raw` on a validated disk found in
the inventory: with `used` the sum of existing partition sizes and `free`
the disk size minus `used` — zero free space fails; a blank size input
resolves to all free space; an oversize request fails with `Size too large`
and never reaches the partition editor (`parted`) — though the inventory
reader has already run, so a tool invocation does precede the failure; an
in-range request invokes `parted mkpart primary <used/10^6>MB
<(used+size)/10^6>MB`; and when `parted` succeeds the inventory is re-read
and the last partition name of the disk is returned. -/
theorem c8_create_partition (env : Env) (disk size_input : String) (dev : BlockDevice)
    (used free : Nat)
    (hv : validate_device_name disk = Except.ok ())
    (hfind : (list_block_devices env).2.find? (fun d => d.name = disk) = some dev)
    (hused : used = (dev.partitions.map (fun p => p.size)).sum)
    (hfree : free = dev.size - used) :
    (free = 0 →
      (create_partition_raw env disk size_input).2 = Except.error ("No free space")) ∧
    (trimChars size_input.toList = [] →
      requested_size_of free size_input = Except.ok free) ∧
    (∀ req, free ≠ 0 → requested_size_of free size_input = Except.ok req → free < req →
      (create_partition_raw env disk size_input).2 = Except.error ("Size too large") ∧
      noneSat isPartedAct (create_partition_raw env disk size_input).1 = true) ∧
    (∀ req, free ≠ 0 → requested_size_of free size_input = Except.ok req → req ≤ free →
      Act.tool ("parted") (["-s", "/dev/" ++ disk, "mkpart", "primary",
          toString (used / 1000000) ++ "MB", toString ((used + req) / 1000000) ++ "MB"]) none
        ∈ (create_partition_raw env disk size_input).1) ∧
    (∀ req dev2 np, free ≠ 0 → requested_size_of free size_input = Except.ok req →
      req ≤ free →
      (env.run ("parted") (["-s", "/dev/" ++ disk, "mkpart", "primary",
          toString (used / 1000000) ++ "MB", toString ((used + req) / 1000000) ++ "MB"])
          none).spawned = true →
      (env.run ("parted") (["-s", "/dev/" ++ disk, "mkpart", "primary",
          toString (used / 1000000) ++ "MB", toString ((used + req) / 1000000) ++ "MB"])
          none).success = true →
      (list_block_devices_again env).2.find? (fun d => d.name = disk) = some dev2 →
      dev2.partitions.getLast? = some np →
      (create_partition_raw env disk size_input).2 = Except.ok np.name) := by
  subst hused hfree
  refine ⟨?_, ?_, ?_, ?_, ?_⟩
  · intro hz
    simp [create_partition_raw, hv, hfind, hz]
  · intro hb
    unfold requested_size_of
    rw [if_pos hb]
  · intro req hnz hreq hgt
    constructor
    · simp [create_partition_raw, hv, hfind, hnz, hreq, hgt]
    · have htr : (create_partition_raw env disk size_input).1 =
          (list_block_devices env).1 ++
            [notif (Lvl.error) ("Requested size exceeds available space (" ++
              format_bytes req ++ " > " ++
              format_bytes (dev.size - (dev.partitions.map (fun p => p.size)).sum) ++ ")")] := by
        simp [create_partition_raw, hv, hfind, hnz, hreq, hgt]
      rw [htr]
      simp [noneSat_append, noneSat_cons, noneSat_nil, isPartedAct,
        list_block_devices_trace, notif]
  · intro req hnz hreq hle
    have hng : ¬((dev.size - (dev.partitions.map (fun p => p.size)).sum) < req) :=
      not_lt.mpr hle
    simp only [create_partition_raw, hv, hfind, hnz, hreq, hng, runTool]
    split_ifs <;> (try split) <;> (try split) <;> simp_all
  · intro req dev2 np hnz hreq hle hsp hsc hfind2 hlast
    have hng : ¬((dev.size - (dev.partitions.map (fun p => p.size)).sum) < req) :=
      not_lt.mpr hle
    simp [create_partition_raw, hv, hfind, hnz, hreq, hng, runTool,
      hsp, hsc, hfind2, hlast]


/-- Witness for C8: on the empty 1 GB disk `sdb`, a `500M` request produces
`mkpart primary 0MB 500MB`, returns `sdb1`, and the full
`create_partition_with_fs` run also invokes `mkfs.ext4` on `/dev/sdb1` and
succeeds. -/
theorem c8_create_partition_witness :
    (Act.tool ("parted") (["-s", "/dev/" ++ "sdb", "mkpart", "primary",
        toString ((0 : Nat) / 1000000) ++ "MB", toString (((0 : Nat) + 500000000) / 1000000) ++ "MB"]) none
      ∈ (create_partition_raw envSdb ("sdb") ("500M")).1) ∧
    (create_partition_raw envSdb ("sdb") ("500M")).2 = Except.ok ("sdb1") ∧
    (Act.tool ("parted") (["-s", "/dev/sdb", "mkpart", "primary", "0MB", "500MB"]) none
      ∈ (create_partition_with_fs envSdb ("sdb") ("500M") (FilesystemType.Ext4)).1) ∧
    makerOn (create_partition_with_fs envSdb ("sdb") ("500M") (FilesystemType.Ext4)).1
      ("/dev/sdb1") = true ∧
    (create_partition_with_fs envSdb ("sdb") ("500M") (FilesystemType.Ext4)).2 = Except.ok () :=
  ⟨(c8_create_partition envSdb ("sdb") ("500M")
      ⟨"sdb", 1000000000, none, none, []⟩ 0 1000000000
      (by decide) rfl rfl rfl).2.2.2.1 500000000 (by decide) (by decide) (by decide),
   (c8_create_partition envSdb ("sdb") ("500M")
      ⟨"sdb", 1000000000, none, none, []⟩ 0 1000000000
      (by decide) rfl rfl rfl).2.2.2.2 500000000
      ⟨"sdb", 1000000000, none, none, [⟨"sdb1", 500000000, none, none, false⟩]⟩
      ⟨"sdb1", 500000000, none, none, false⟩
      (by decide) (by decide) (by decide) (by decide) (by decide) rfl rfl,
   by decide, by decide, by decide⟩

/-- Counterexample for C8 as stated: the oversize `2G` request on the 1 GB
disk fails with `Size too large`, yet its trace already contains a tool
invocation (the `lsblk` inventory read), so the failure is not "before any
tool is invoked". -/
theorem c8_counterexample :
    (create_partition_raw envSdb ("sdb") ("2G")).2 = Except.error ("Size too large") ∧
    (create_partition_raw envSdb ("sdb") ("2G")).1.any isToolAct = true := by
  constructor <;> decide

/-- Two strings with distinct first characters differ. -/
theorem string_ne_of_head (s t : String) (c d : Char) (hs : s.toList.head? = some c)
    (ht : t.toList.head? = some d) (hcd : c ≠ d) : s ≠ t := by
  intro h
  rw [h, ht] at hs
  exact hcd (Option.some.inj hs).symm

/-- A resolved device path (always under `/dev`) is never the literal
`-l` flag. -/
theorem get_device_path_ne_lazy (env : Env) (d : String) :
    get_device_path env d ≠ ("-l") := by
  unfold get_device_path
  dsimp only
  split_ifs <;> exact string_ne_of_head _ _ ('/') ('-') rfl rfl (by decide)

/-- The plain unmount invocation is not a detached unmount. -/
theorem plain_umount_not_lazy (env : Env) (d : String) :
    isLazyUmountAct (Act.tool ("umount") ([get_device_path env d]) none) = false := by
  simp [isLazyUmountAct, get_device_path_ne_lazy env d]

/-- The lazy-unmount fallback: exactly one detached unmount, never the plain
success notification; on success it reports the distinct still-in-use
notification and returns `ok`; on failure it reports an `Error`
notification and returns `Err`. -/
theorem lazy_seq_spec (env : Env) (partition dp : String) :
    (lazy_unmount_seq env partition dp).1.countP isLazyUmountAct = 1 ∧
    notif (Lvl.info) ("Unmounted " ++ partition) ∉ (lazy_unmount_seq env partition dp).1 ∧
    ((env.run ("umount") (["-l", dp]) none).spawned = true →
      (env.run ("umount") (["-l", dp]) none).success = true →
      (lazy_unmount_seq env partition dp).2 = Except.ok () ∧
      notif (Lvl.info) ("Lazy unmounted " ++ partition ++ " (will complete when no longer in use)")
        ∈ (lazy_unmount_seq env partition dp).1) ∧
    ((env.run ("umount") (["-l", dp]) none).spawned = true →
      (env.run ("umount") (["-l", dp]) none).success = false →
      (lazy_unmount_seq env partition dp).2 = Except.error ("Lazy unmount failed") ∧
      notif (Lvl.error) ("Lazy unmount failed: " ++
          (env.run ("umount") (["-l", dp]) none).stderr)
        ∈ (lazy_unmount_seq env partition dp).1) := by
  have h1 : ("Unmounted " ++ partition) ≠ ("Device is busy. Attempting lazy unmount...") :=
    string_ne_of_head _ _ ('U') ('D') rfl rfl (by decide)
  have h2 : ("Unmounted " ++ partition) ≠
      ("Lazy unmounted " ++ partition ++ " (will complete when no longer in use)") :=
    string_ne_of_head _ _ ('U') ('L') rfl rfl (by decide)
  unfold lazy_unmount_seq
  dsimp only [runTool]
  split_ifs with hsp hsc
  · rw [Bool.not_eq_true'] at hsp
    refine ⟨by simp [isLazyUmountAct, notif], by simp [notif, h1], ?_, ?_⟩
    · intro hsp2
      rw [hsp] at hsp2
      cases hsp2
    · intro hsp2
      rw [hsp] at hsp2
      cases hsp2
  · simp only [Bool.not_eq_true, Bool.not_eq_false', Bool.not_eq_true'] at hsp hsc
    refine ⟨by simp [isLazyUmountAct, notif], by simp [notif, h1], ?_, ?_⟩
    · intro _ hsc2
      rw [hsc] at hsc2
      cases hsc2
    · intro _ _
      exact ⟨rfl, by simp [notif]⟩
  · simp only [Bool.not_eq_true, Bool.not_eq_false', Bool.not_eq_true'] at hsp hsc
    refine ⟨by simp [isLazyUmountAct, notif], by simp [notif, h1, h2], ?_, ?_⟩
    · intro _ _
      exact ⟨rfl, by simp [notif]⟩
    · intro _ hsc2
      exact absurd hsc2 hsc

/-- **C9 (confirmed).**  For every unmount of a validated, mounted,
non-encrypted device whose node exists: on a timeout or a busy-stderr
failure of the plain unmount, the run performs exactly one detached
(`umount -l`) invocation and never emits the plain `Unmounted <p>`
notification; if the lazy unmount succeeds the run returns `ok` with the
distinct still-in-use notification, and if it fails the run returns `Err`
with an `Error` notification.  On ordinary unmount success the mount-point
directory is removed and the plain success notification is emitted. -/
theorem c9_unmount_busy_fallback (env : Env) (partition : String)
    (hv : validate_device_name partition = Except.ok ())
    (hl : (is_luks_device env partition).2 = false)
    (hm : (is_mounted env partition).2 = Except.ok true)
    (hp : env.pathExists (get_device_path env partition) = true) :
    ((env.umountTimeout = true ∨
        ((env.run ("umount") ([get_device_path env partition]) none).spawned = true ∧
         (env.run ("umount") ([get_device_path env partition]) none).success = false ∧
         (containsSub (env.run ("umount") ([get_device_path env partition]) none).stderr
            ("target is busy") ||
          containsSub (env.run ("umount") ([get_device_path env partition]) none).stderr
            ("device is busy")) = true)) →
      (unmount_partition env partition).1.countP isLazyUmountAct = 1 ∧
      notif (Lvl.info) ("Unmounted " ++ partition) ∉ (unmount_partition env partition).1 ∧
      ((env.run ("umount") (["-l", get_device_path env partition]) none).spawned = true →
        (env.run ("umount") (["-l", get_device_path env partition]) none).success = true →
        (unmount_partition env partition).2 = Except.ok () ∧
        notif (Lvl.info) ("Lazy unmounted " ++ partition ++ " (will complete when no longer in use)")
          ∈ (unmount_partition env partition).1) ∧
      ((env.run ("umount") (["-l", get_device_path env partition]) none).spawned = true →
        (env.run ("umount") (["-l", get_device_path env partition]) none).success = false →
        (unmount_partition env partition).2 = Except.error ("Lazy unmount failed") ∧
        notif (Lvl.error) ("Lazy unmount failed: " ++
            (env.run ("umount") (["-l", get_device_path env partition]) none).stderr)
          ∈ (unmount_partition env partition).1)) ∧
    (env.umountTimeout = false →
      (env.run ("umount") ([get_device_path env partition]) none).spawned = true →
      (env.run ("umount") ([get_device_path env partition]) none).success = true →
      (unmount_partition env partition).2 = Except.ok () ∧
      Act.tool ("rmdir") (["/mnt/" ++ partition]) none ∈ (unmount_partition env partition).1 ∧
      notif (Lvl.info) ("Unmounted " ++ partition) ∈ (unmount_partition env partition).1) := by
  have hls := lazy_seq_spec env partition (get_device_path env partition)
  constructor
  · intro htb
    have htr : (unmount_partition env partition).1 =
        ((is_luks_device env partition).1 ++ (is_mounted env partition).1 ++
          [Act.ev (UiEv.progStart ("Unmounting " ++ partition ++ "..."))] ++
          [Act.tool ("umount") ([get_device_path env partition]) none] ++
          [Act.ev (UiEv.progEnd)]) ++
          (lazy_unmount_seq env partition (get_device_path env partition)).1 ∧
        (unmount_partition env partition).2 =
          (lazy_unmount_seq env partition (get_device_path env partition)).2 := by
      rcases htb with htt | ⟨hsp, hsu, hbusy⟩
      · constructor <;>
          simp [unmount_partition, unmount_main, hv, hl, hm, hp, htt, runTool]
      · constructor <;>
          simp [unmount_partition, unmount_main, hv, hl, hm, hp, hsp, hsu, hbusy, runTool]
    refine ⟨?_, ?_, ?_, ?_⟩
    · rw [htr.1]
      simp [List.countP_append, List.countP_cons, isLazyUmountAct, hls.1,
        is_luks_device_trace, is_mounted_trace, get_device_path_ne_lazy env partition]
    · rw [htr.1]
      simp [notif, is_luks_device_trace, is_mounted_trace]
      simpa [notif] using hls.2.1
    · intro hsp2 hsc2
      have hc := hls.2.2.1 hsp2 hsc2
      exact ⟨htr.2.trans hc.1, by rw [htr.1]; exact List.mem_append_right _ hc.2⟩
    · intro hsp2 hsc2
      have hc := hls.2.2.2 hsp2 hsc2
      exact ⟨htr.2.trans hc.1, by rw [htr.1]; exact List.mem_append_right _ hc.2⟩
  · intro htt hsp hsc
    have htr : (unmount_partition env partition).1 =
        (is_luks_device env partition).1 ++ (is_mounted env partition).1 ++
          [Act.ev (UiEv.progStart ("Unmounting " ++ partition ++ "..."))] ++
          [Act.tool ("umount") ([get_device_path env partition]) none] ++
          [Act.ev (UiEv.progEnd)] ++
          [Act.tool ("rmdir") (["/mnt/" ++ partition]) none] ++
          [notif (Lvl.info) ("Unmounted " ++ partition)] ∧
        (unmount_partition env partition).2 = Except.ok () := by
      constructor <;>
        simp [unmount_partition, unmount_main, hv, hl, hm, hp, htt, hsp, hsc, runTool]
    refine ⟨htr.2, ?_, ?_⟩ <;> (rw [htr.1]; simp)


/-- Witness for C9: the timeout environment falls back to one lazy unmount
and reports the still-in-use notification; the busy-stderr environment
likewise; the environment whose lazy unmount also fails returns the lazy
failure; the plainly mounted environment unmounts, removes `/mnt/sdc1` and
reports `Unmounted sdc1`. -/
theorem c9_unmount_busy_fallback_witness :
    ((unmount_partition envUmTimeout ("sdc1")).1.countP isLazyUmountAct = 1 ∧
     notif (Lvl.info) ("Unmounted " ++ "sdc1") ∉ (unmount_partition envUmTimeout ("sdc1")).1 ∧
     (unmount_partition envUmTimeout ("sdc1")).2 = Except.ok () ∧
     notif (Lvl.info) ("Lazy unmounted " ++ "sdc1" ++ " (will complete when no longer in use)")
       ∈ (unmount_partition envUmTimeout ("sdc1")).1) ∧
    ((unmount_partition envUmBusy ("sdc1")).1.countP isLazyUmountAct = 1 ∧
     (unmount_partition envUmBusy ("sdc1")).2 = Except.ok ()) ∧
    ((unmount_partition envUmLazyFail ("sdc1")).2 = Except.error ("Lazy unmount failed")) ∧
    ((unmount_partition envMounted ("sdc1")).2 = Except.ok () ∧
     Act.tool ("rmdir") (["/mnt/" ++ "sdc1"]) none ∈ (unmount_partition envMounted ("sdc1")).1 ∧
     notif (Lvl.info) ("Unmounted " ++ "sdc1") ∈ (unmount_partition envMounted ("sdc1")).1) :=
  ⟨⟨((c9_unmount_busy_fallback envUmTimeout ("sdc1")
        (by decide) (by decide) (by decide) (by decide)).1 (Or.inl (by decide))).1,
    ((c9_unmount_busy_fallback envUmTimeout ("sdc1")
        (by decide) (by decide) (by decide) (by decide)).1 (Or.inl (by decide))).2.1,
    (((c9_unmount_busy_fallback envUmTimeout ("sdc1")
        (by decide) (by decide) (by decide) (by decide)).1 (Or.inl (by decide))).2.2.1
      (by decide) (by decide)).1,
    (((c9_unmount_busy_fallback envUmTimeout ("sdc1")
        (by decide) (by decide) (by decide) (by decide)).1 (Or.inl (by decide))).2.2.1
      (by decide) (by decide)).2⟩,
   ⟨((c9_unmount_busy_fallback envUmBusy ("sdc1")
        (by decide) (by decide) (by decide) (by decide)).1
      (Or.inr ⟨by decide, by decide, by decide⟩)).1,
    (((c9_unmount_busy_fallback envUmBusy ("sdc1")
        (by decide) (by decide) (by decide) (by decide)).1
      (Or.inr ⟨by decide, by decide, by decide⟩)).2.2.1 (by decide) (by decide)).1⟩,
   (((c9_unmount_busy_fallback envUmLazyFail ("sdc1")
        (by decide) (by decide) (by decide) (by decide)).1 (Or.inl (by decide))).2.2.2
      (by decide) (by decide)).1,
   ⟨((c9_unmount_busy_fallback envMounted ("sdc1")
        (by decide) (by decide) (by decide) (by decide)).2 (by decide) (by decide) (by decide)).1,
    ((c9_unmount_busy_fallback envMounted ("sdc1")
        (by decide) (by decide) (by decide) (by decide)).2 (by decide) (by decide) (by decide)).2.1,
    ((c9_unmount_busy_fallback envMounted ("sdc1")
        (by decide) (by decide) (by decide) (by decide)).2 (by decide) (by decide) (by decide)).2.2⟩⟩

/-- Notification and progress emissions are never terminal responses. -/
theorem emit_not_terminal (e : HelperEmit) : isTerminal (HelperEmit.toResponse e) = false := by
  cases e <;> rfl

/-- **C6 (amended).**  The helper main loop equals its per-line
specification: the stream of responses is the concatenation of the
contributions of the lines before the first shutdown line.  A *non-blank*
line that fails to decode contributes exactly one `Error` and processing
continues; a decoded non-shutdown request contributes its
notification/progress emissions (none terminal) strictly followed by its
single terminal `Ok`/`Error`; a shutdown line terminates the stream at once
with no response.  (Blank lines are skipped silently — see the
counterexample for the unamended reading.) -/
theorem c6_helper_stream :
    (∀ (decode : String → Except String Request)
       (handler : Request → List HelperEmit × Except String Unit) (lines : List String),
      helper_main decode handler lines = helper_spec decode handler lines) ∧
    (∀ (decode : String → Except String Request)
       (handler : Request → List HelperEmit × Except String Unit) (line : String)
       (e : String),
      trimChars line.toList ≠ [] → decode line = Except.error e →
      lineContribution decode handler line = [Response.Error ("Invalid request: " ++ e)]) ∧
    (∀ (decode : String → Except String Request)
       (handler : Request → List HelperEmit × Except String Unit) (line : String)
       (req : Request),
      trimChars line.toList ≠ [] → decode line = Except.ok req → req ≠ Request.Shutdown →
      lineContribution decode handler line =
        ((handler req).1.map HelperEmit.toResponse) ++
          [match (handler req).2 with
            | Except.ok _ => Response.Ok none
            | Except.error e => Response.Error e] ∧
      (∀ r ∈ (handler req).1.map HelperEmit.toResponse, isTerminal r = false) ∧
      isTerminal (match (handler req).2 with
        | Except.ok _ => Response.Ok none
        | Except.error e => Response.Error e) = true) ∧
    (∀ (decode : String → Except String Request)
       (handler : Request → List HelperEmit × Except String Unit) (line : String)
       (post : List String),
      isShutdownLine decode line = true →
      helper_main decode handler (line :: post) = []) := by
  refine ⟨?_, ?_, ?_, ?_⟩
  · intro decode handler lines
    induction lines with
    | nil => rfl
    | cons line rest ih =>
      by_cases hb : trimChars line.data = []
      · simp [helper_main, helper_spec, lineContribution, isShutdownLine, hb, ih,
          List.takeWhile_cons]
      · cases hdec : decode line with
        | error e =>
          simp [helper_main, helper_spec, lineContribution, isShutdownLine, hb, hdec, ih,
            List.takeWhile_cons]
        | ok req =>
          cases req <;>
            simp [helper_main, helper_spec, lineContribution, isShutdownLine, hb, hdec, ih,
              List.takeWhile_cons]
  · intro decode handler line e hb hdec
    unfold lineContribution
    rw [if_neg hb, hdec]
  · intro decode handler line req hb hdec hns
    refine ⟨?_, ?_, ?_⟩
    · unfold lineContribution
      rw [if_neg hb, hdec]
      cases req <;> first | rfl | exact absurd rfl hns
    · intro r hr
      simp only [List.mem_map] at hr
      obtain ⟨em, -, hem⟩ := hr
      rw [← hem]
      exact emit_not_terminal em
    · cases h2 : (handler req).2 <;> rfl
  · intro decode handler line post hsd
    simp only [isShutdownLine, Bool.and_eq_true, decide_eq_true_eq] at hsd
    have hb : ¬(trimChars line.toList = []) := by
      have := hsd.1
      simp only [Bool.not_eq_true', decide_eq_false_iff_not] at this
      exact this
    rw [helper_main, if_neg hb, hsd.2]

/-- Counterexample for C6 as stated: the blank line fails to deserialize,
yet the helper emits no `Error` response for it — blank lines are skipped
before decoding, so "each line that fails to deserialize produces exactly
one Error response" is false for blank lines. -/
theorem c6_counterexample :
    decodeNone ("") = Except.error ("expected value") ∧
    trimChars ("").toList = [] ∧
    helper_main decodeNone handlerNone ([""]) = [] :=
  ⟨rfl, rfl, rfl⟩

/-- Witness for C6: on the stream `mount`, `bad`, blank, `shutdown`,
`mount`, the loop matches the specification and produces exactly the
notification and terminal of `mount`, then the decode `Error` for `bad`,
and nothing further; the individual contributions and the immediate
shutdown stop are exhibited. -/
theorem c6_helper_stream_witness :
    (helper_main decodeW handlerW (["mount", "bad", "", "shutdown", "mount"]) =
      helper_spec decodeW handlerW (["mount", "bad", "", "shutdown", "mount"])) ∧
    (helper_main decodeW handlerW (["mount", "bad", "", "shutdown", "mount"]) =
      [Response.Notification ("info") ("mounted"), Response.Ok none,
       Response.Error ("Invalid request: " ++ "unknown op")]) ∧
    (lineContribution decodeW handlerW ("bad") =
      [Response.Error ("Invalid request: " ++ "unknown op")]) ∧
    (lineContribution decodeW handlerW ("mount") =
      [Response.Notification ("info") ("mounted"), Response.Ok none]) ∧
    (helper_main decodeW handlerW (["shutdown", "mount"]) = []) :=
  ⟨c6_helper_stream.1 decodeW handlerW (["mount", "bad", "", "shutdown", "mount"]),
   by decide,
   c6_helper_stream.2.1 decodeW handlerW ("bad") ("unknown op") (by decide) (by decide),
   by
     have h := c6_helper_stream.2.2.1 decodeW handlerW ("mount") (Request.Mount ("sdb1"))
       (by decide) (by decide) (by decide)
     rw [h.1]
     decide,
   c6_helper_stream.2.2.2 decodeW handlerW ("shutdown") (["mount"]) (by decide)⟩

/-- A task step keeps the progress-end count; it either leaves the flag and
the task count unchanged, or (at completion) stores the flag `false` and
removes the task. -/
theorem runTaskStep_inv (s : Sys) (i : Nat)
    (h : (match s.tasks.get? i with
          | some (_ :: _) => true
          | _ => false) = true) :
    (runTaskStep s i).endsConsumed = s.endsConsumed ∧
    (((runTaskStep s i).flag = s.flag ∧ (runTaskStep s i).tasks.length = s.tasks.length) ∨
     ((runTaskStep s i).flag = false ∧
       (runTaskStep s i).tasks.length = s.tasks.length - 1 ∧ 0 < s.tasks.length)) := by
  rcases hget : s.tasks.get? i with - | ⟨- | ⟨a, rest⟩⟩
  · rw [hget] at h
    cases h
  · rw [hget] at h
    cases h
  · have hlt : i < s.tasks.length := by
      by_contra hc
      push_neg at hc
      rw [List.get?_eq_none.mpr hc] at hget
      cases hget
    unfold runTaskStep
    rw [hget]
    dsimp only
    refine ⟨?_, ?_⟩
    · cases a <;> split_ifs <;> rfl
    · by_cases he : rest.isEmpty
      · refine Or.inr ?_
        cases a <;>
          simp [he, List.length_eraseIdx, hlt] <;> omega
      · refine Or.inl ?_
        cases a <;> simp [he, List.length_set]

/-- A consumer step keeps the task list; it either leaves the flag and the
progress-end count unchanged, or (on `EndProgress`) stores the flag `false`
and counts the event. -/
theorem consumeStep_inv (s : Sys) :
    (consumeStep s).tasks.length = s.tasks.length ∧
    (((consumeStep s).flag = s.flag ∧ (consumeStep s).endsConsumed = s.endsConsumed) ∨
     ((consumeStep s).flag = false ∧ (consumeStep s).endsConsumed = s.endsConsumed + 1)) := by
  unfold consumeStep
  rcases hq : s.queue with - | ⟨e, q⟩
  · exact ⟨rfl, Or.inl ⟨rfl, rfl⟩⟩
  · dsimp only
    split_ifs with he
    · exact ⟨rfl, Or.inr ⟨rfl, rfl⟩⟩
    · exact ⟨rfl, Or.inl ⟨rfl, rfl⟩⟩

/-- **C2 (amended).**  The concurrency guard: at every reachable state the
number of in-flight destructive tasks is at most the flag bit plus the
number of progress-end events the consumer has processed; a dispatch
attempted while the flag is set is rejected — only the warning notification
is queued, and the tasks, flag, tool log, processed list and end count are
untouched; while the flag is set no step grows the set of in-flight tasks;
an accepted dispatch stores the flag `true` and spawns the task; the
consumer stores the flag `false` (and counts) when it processes a
progress-end event; once the flag is clear a new dispatch is enabled.
(The claim's stronger readings — at most one in flight at *every* reachable
state, and the flag cleared *exactly* by the consumer — fail; see the
counterexample.) -/
theorem c2_concurrency_guard :
    (∀ (scripts : List (List Act)) (s : Sys), GReach scripts initSys s →
      s.tasks.length ≤ (if s.flag then 1 else 0) + s.endsConsumed) ∧
    (∀ (scripts : List (List Act)) (s : Sys) (script : List Act), script ∈ scripts →
      s.flag = true →
      GStep scripts s (rejectState s) ∧
      (rejectState s).queue = s.queue ++ [warnBusy] ∧
      (rejectState s).tasks = s.tasks ∧ (rejectState s).flag = s.flag ∧
      (rejectState s).toolLog = s.toolLog ∧ (rejectState s).processed = s.processed ∧
      (rejectState s).endsConsumed = s.endsConsumed) ∧
    (∀ (scripts : List (List Act)) (s s' : Sys), GStep scripts s s' → s.flag = true →
      s'.tasks.length ≤ s.tasks.length) ∧
    (∀ (s : Sys) (script : List Act),
      (spawnState s script).flag = true ∧
      (spawnState s script).tasks = s.tasks ++ [script]) ∧
    (∀ (s : Sys) (q : List UiEv), s.queue = UiEv.progEnd :: q →
      (consumeStep s).flag = false ∧ (consumeStep s).endsConsumed = s.endsConsumed + 1) ∧
    (∀ (scripts : List (List Act)) (s : Sys) (script : List Act), script ∈ scripts →
      s.flag = false → GStep scripts s (spawnState s script)) := by
  refine ⟨?_, ?_, ?_, ?_, ?_, ?_⟩
  · intro scripts s h
    induction h with
    | refl => simp [initSys]
    | tail hab hbc ih =>
      rename_i b c
      cases hbc with
      | dispatchBlocked script hs hf =>
        simpa [rejectState] using ih
      | dispatchOk script hs hf =>
        rw [hf] at ih
        simp only [spawnState, List.length_append, List.length_cons, List.length_nil] at *
        simp at ih ⊢
        omega
      | taskRun i hht =>
        obtain ⟨he, hcase⟩ := runTaskStep_inv b i hht
        rw [he]
        rcases hcase with ⟨hf, hl⟩ | ⟨hf, hl, hpos⟩
        · rw [hf, hl]
          exact ih
        · rw [hf, hl]
          rcases hfv : b.flag <;> rw [hfv] at ih <;> simp at ih ⊢ <;> omega
      | consume hq =>
        obtain ⟨hl, hcase⟩ := consumeStep_inv b
        rw [hl]
        rcases hcase with ⟨hf, he⟩ | ⟨hf, he⟩
        · rw [hf, he]
          exact ih
        · rw [hf, he]
          rcases hfv : b.flag <;> rw [hfv] at ih <;> simp at ih ⊢ <;> omega
  · intro scripts s script hs hf
    exact ⟨GStep.dispatchBlocked s script hs hf, rfl, rfl, rfl, rfl, rfl, rfl⟩
  · intro scripts s s' hstep hf
    cases hstep with
    | dispatchBlocked script hs h => exact le_refl _
    | dispatchOk script hs h => rw [h] at hf; cases hf
    | taskRun i hht =>
      obtain ⟨-, hcase⟩ := runTaskStep_inv s i hht
      rcases hcase with ⟨-, hl⟩ | ⟨-, hl, -⟩ <;> omega
    | consume hq =>
      obtain ⟨hl, -⟩ := consumeStep_inv s
      omega
  · intro s script
    exact ⟨rfl, rfl⟩
  · intro s q hq
    unfold consumeStep
    rw [hq]
    exact ⟨rfl, rfl⟩
  · intro scripts s script hs hf
    exact GStep.dispatchOk s script hs hf


/-- Running task 0 for `k` ready steps is reachable. -/
theorem greach_runK (scripts : List (List Act)) (s : Sys) (k : Nat)
    (h : ∀ j, j < k → taskReady (runK s j) 0 = true) :
    GReach scripts s (runK s k) := by
  induction k generalizing s with
  | zero => exact Relation.ReflTransGen.refl
  | succ n ih =>
    have h0 : taskReady s 0 = true := by
      have h1 := h 0 (Nat.succ_pos n)
      simpa [runK] using h1
    have hstep : GStep scripts s (runTaskStep s 0) :=
      GStep.taskRun s 0 (by simpa [taskReady] using h0)
    have hrest : GReach scripts (runTaskStep s 0) (runK (runTaskStep s 0) n) := by
      apply ih
      intro j hj
      have h2 := h (j + 1) (Nat.succ_lt_succ hj)
      simpa [runK] using h2
    exact Relation.ReflTransGen.trans (Relation.ReflTransGen.single hstep) hrest

/-- Consuming `k` queued events is reachable. -/
theorem greach_consK (scripts : List (List Act)) (s : Sys) (k : Nat)
    (h : ∀ j, j < k → (consK s j).queue ≠ []) :
    GReach scripts s (consK s k) := by
  induction k generalizing s with
  | zero => exact Relation.ReflTransGen.refl
  | succ n ih =>
    have h0 : s.queue ≠ [] := by
      have h1 := h 0 (Nat.succ_pos n)
      simpa [consK] using h1
    have hstep : GStep scripts s (consumeStep s) := GStep.consume s h0
    have hrest : GReach scripts (consumeStep s) (consK (consumeStep s) n) := by
      apply ih
      intro j hj
      have h2 := h (j + 1) (Nat.succ_lt_succ hj)
      simpa [consK] using h2
    exact Relation.ReflTransGen.trans (Relation.ReflTransGen.single hstep) hrest

/-- Counterexample for C2 as stated: after dispatching the format script,
running it up to (and past) its `EndProgress` event and letting the consumer
process that event, the flag is clear while the format task is still in
flight, so a second dispatch is accepted — a reachable state holds two
in-flight destructive tasks.  Moreover the mount script, run to completion
with the consumer never running, shows the flag going from set to clear with
no progress-end event processed: the flag is cleared by task completion,
not exactly by the consumer. -/
theorem c2_counterexample :
    (GReach cexScripts initSys
        (spawnState (consK (runK (spawnState initSys fmtScript) 6) 2) mntScript) ∧
      2 ≤ (spawnState (consK (runK (spawnState initSys fmtScript) 6) 2) mntScript).tasks.length) ∧
    ((spawnState initSys mntScript).flag = true ∧
      GReach cexScripts (spawnState initSys mntScript) (runK (spawnState initSys mntScript) 6) ∧
      (runK (spawnState initSys mntScript) 6).flag = false ∧
      (runK (spawnState initSys mntScript) 6).endsConsumed = 0 ∧
      (runK (spawnState initSys mntScript) 6).processed = []) := by
  refine ⟨⟨?_, by decide⟩, rfl, ?_, by decide, by decide, by decide⟩
  · have h1 : GReach cexScripts initSys (spawnState initSys fmtScript) :=
      Relation.ReflTransGen.single
        (GStep.dispatchOk initSys fmtScript (by simp [cexScripts]) rfl)
    have h2 := greach_runK cexScripts (spawnState initSys fmtScript) 6 (by decide)
    have h3 := greach_consK cexScripts (runK (spawnState initSys fmtScript) 6) 2 (by decide)
    have h4 : GStep cexScripts (consK (runK (spawnState initSys fmtScript) 6) 2)
        (spawnState (consK (runK (spawnState initSys fmtScript) 6) 2) mntScript) :=
      GStep.dispatchOk _ mntScript (by simp [cexScripts]) (by decide)
    exact Relation.ReflTransGen.tail
      (Relation.ReflTransGen.trans h1 (Relation.ReflTransGen.trans h2 h3)) h4
  · exact greach_runK cexScripts (spawnState initSys mntScript) 6 (by decide)

/-- Witness for C2: the invariant applied at the state right after a
dispatch; the blocked-dispatch rejection at that flagged state changes no
tasks; consuming a queued progress-end clears the flag; and the dispatch
from the clear initial state is enabled. -/
theorem c2_concurrency_guard_witness :
    ((spawnState initSys fmtScript).tasks.length ≤
      (if (spawnState initSys fmtScript).flag then 1 else 0) +
        (spawnState initSys fmtScript).endsConsumed) ∧
    GStep cexScripts (spawnState initSys fmtScript)
      (rejectState (spawnState initSys fmtScript)) ∧
    (rejectState (spawnState initSys fmtScript)).tasks = (spawnState initSys fmtScript).tasks ∧
    (consumeStep { initSys with queue := [UiEv.progEnd] }).flag = false ∧
    GStep cexScripts initSys (spawnState initSys fmtScript) :=
  ⟨c2_concurrency_guard.1 cexScripts (spawnState initSys fmtScript)
      (Relation.ReflTransGen.single
        (c2_concurrency_guard.2.2.2.2.2 cexScripts initSys fmtScript (by simp [cexScripts]) rfl)),
   (c2_concurrency_guard.2.1 cexScripts (spawnState initSys fmtScript) fmtScript
      (by simp [cexScripts]) rfl).1,
   (c2_concurrency_guard.2.1 cexScripts (spawnState initSys fmtScript) fmtScript
      (by simp [cexScripts]) rfl).2.2.1,
   (c2_concurrency_guard.2.2.2.2.1 { initSys with queue := [UiEv.progEnd] } [] rfl).1,
   c2_concurrency_guard.2.2.2.2.2 cexScripts initSys fmtScript (by simp [cexScripts]) rfl⟩

end DiskTui
